import Mathlib

/-!
# DICOM demuxer (`libavformat/dicmdec.c`): element readers and length accounting

A shallow embedding of the data-element readers (`read_explicit`,
`read_explicit_undef`, `read_implicit`), the length accountants (`compute_len`,
`compute_undef_len`) and the undefined-length scanners (`read_item_undef`,
`read_sq_undef`, `read_encapsulated_pixel_data`, `read_dataset`).

Conventions of the embedding:
* the host is little-endian (the first branch of every `#if __BYTE_ORDER__`);
* `uint16_t` / `uint32_t` values are natural numbers, reduced modulo `2^16` / `2^32`
  wherever the C arithmetic can leave the range;
* a call ends in one of three ways, see `Run`: it returns, an `av_assert0` fails
  (libavutil logs and calls `abort()`), or the bounded unrolling of a loop is used up;
* automatic variables that the C code does not initialise hold the values given by a
  `Stack` argument.
-/

namespace Dicm

/-! ## Outcomes -/

/-- How a call ends: it returns a value, an `av_assert0` fails and the process is
aborted, or the bounded unrolling of a `do ... while(1)` loop is exhausted. -/
inductive Run (α : Type) where
  | ret (a : α) : Run α
  | abort : Run α
  | nofuel : Run α
deriving DecidableEq

/-- Sequencing: a call that aborted (or was cut short) stops everything after it. -/
def Run.bind {α β : Type} (x : Run α) (f : α → Run β) : Run β :=
  match x with
  | .ret a => f a
  | .abort => .abort
  | .nofuel => .nofuel

instance : Monad Run where
  pure := Run.ret
  bind := Run.bind

/-- The macro `av_assert0(cond)`: nothing happens when `cond` holds, the process is
aborted otherwise. -/
def av_assert0 (cond : Bool) : Run Unit :=
  if cond then .ret () else .abort

/-! ## The byte source -/

/-- One octet of the stream. -/
abbrev Byte := Fin 256

/-- The byte source `AVIOContext`: the whole stream and the forward-only cursor. -/
structure AVIOContext where
  data : List Byte
  pos : Nat
deriving DecidableEq

/-- What one `avio_read` call yields: its `int` return value, the bytes it stored at
the front of the caller's buffer, and the source afterwards. -/
structure ReadResult where
  ret : Int
  got : List Byte
  pb : AVIOContext
deriving DecidableEq

/-- Modelled from the spec: the errno constant `EIO` of the platform headers. -/
def EIO : Int := 5

/-- Modelled from the spec: libavutil's `AVERROR(e)`, the negated errno. -/
def AVERROR (e : Int) : Int := -e

/-- Modelled from the spec: libavutil's `AVERROR_INVALIDDATA`, the negated tag
`INDA`; only that it is negative and differs from `AVERROR(EIO)` matters. -/
def AVERROR_INVALIDDATA : Int := -1094995529

/-- Modelled from the spec: libavutil's `AVERROR_EOF`, the negated tag `EOF `. -/
def AVERROR_EOF : Int := -541478725

/-- Modelled from the spec: the byte source's `read(n)` (`avio_read` of
libavformat/aviobuf.c, not among the sources). It copies the next `size` bytes, or as
many as are left when the stream ends sooner, advances the cursor past them and returns
their number; with nothing left it returns the negative end-of-stream code. A read of
length zero succeeds with an empty result. -/
def avio_read (pb : AVIOContext) (size : Nat) : ReadResult :=
  let got := (pb.data.drop pb.pos).take size
  if got.length = 0 then
    { ret := if size = 0 then 0 else AVERROR_EOF, got := [], pb := pb }
  else
    { ret := (got.length : Int), got := got, pb := { pb with pos := pb.pos + got.length } }

/-- Modelled from the spec: the byte source's `skip(n)` (`avio_skip`, not among the
sources): the cursor moves forward by `offset` bytes. The callers ignore its result. -/
def avio_skip (pb : AVIOContext) (offset : Nat) : AVIOContext :=
  { pb with pos := pb.pos + offset }

/-- The next `n` bytes of the source at its cursor (fewer when the stream ends sooner):
what an `avio_read` of `n` bytes would find. -/
def AVIOContext.next (pb : AVIOContext) (n : Nat) : List Byte :=
  (pb.data.drop pb.pos).take n

/-- Indeterminate contents of automatic variables the C code never initialises: the
unions `t`, `vr`, `vl`, `vl16` of the three readers before `avio_read` writes into
them, and the fields `vr` and `vl` of the local `data_element de` of `read_sq_undef`
and `read_encapsulated_pixel_data`. -/
structure Stack where
  t : Nat → Byte
  vr : Nat → Byte
  vl : Nat → Byte
  vl16 : Nat → Byte
  de_vr : Fin 65536
  de_vl : Fin 4294967296

/-- A local buffer after `avio_read` stored `got` at its front: the bytes beyond a
short read keep what the buffer held before. -/
def fill (buf : Nat → Byte) (got : List Byte) : Nat → Byte :=
  fun i => got.getD i (buf i)

/-- The `uint16_t` member of a union over two bytes (little-endian host). -/
def u16 (b : Nat → Byte) : Nat :=
  (b 0).val + 256 * (b 1).val

/-- The `uint32_t` member of a union over four bytes (little-endian host). -/
def u32 (b : Nat → Byte) : Nat :=
  (b 0).val + 256 * (b 1).val + 65536 * (b 2).val + 16777216 * (b 3).val

/-! ## Tags and value representations -/

/-- Function `get_group`: `(uint16_t)(tag >> 16)`. -/
def get_group (tag : Nat) : Nat :=
  (tag >>> 16) % 65536

/-- Function `get_element`: `(uint16_t)(tag & (uint16_t)0xffff)`. -/
def get_element (tag : Nat) : Nat :=
  (tag &&& 0xffff) % 65536

/-- The macro `MAKE_TAG(group,element)`: `(group << 16 | element)`, stored in a
`tag_t` (32 bits). -/
def MAKE_TAG (group element : Nat) : Nat :=
  (group <<< 16 ||| element) % 4294967296

/-- The macro `SWAP_TAG(t)` on a little-endian host, applied to the union `utag_t`
over the four bytes read: `t.tag = MAKE_TAG(t.tags[0], t.tags[1])`. -/
def SWAP_TAG (t : Nat → Byte) : Nat :=
  MAKE_TAG (u16 t) (u16 (fun i => t (i + 2)))

/-- The macro `MAKE_VR(left,right)` on a little-endian host: `(right << 8 | left)`. -/
def MAKE_VR (left right : Char) : Nat :=
  right.toNat <<< 8 ||| left.toNat

/-! The `enum` of VR codes, `E_INVALID = 0` first, the others through `MAKE_VR`. -/

def E_INVALID : Nat := 0
def E_AE : Nat := MAKE_VR 'A' 'E'
def E_AS : Nat := MAKE_VR 'A' 'S'
def E_AT : Nat := MAKE_VR 'A' 'T'
def E_CS : Nat := MAKE_VR 'C' 'S'
def E_DA : Nat := MAKE_VR 'D' 'A'
def E_DS : Nat := MAKE_VR 'D' 'S'
def E_DT : Nat := MAKE_VR 'D' 'T'
def E_FL : Nat := MAKE_VR 'F' 'L'
def E_FD : Nat := MAKE_VR 'F' 'D'
def E_IS : Nat := MAKE_VR 'I' 'S'
def E_LO : Nat := MAKE_VR 'L' 'O'
def E_LT : Nat := MAKE_VR 'L' 'T'
def E_OB : Nat := MAKE_VR 'O' 'B'
def E_OD : Nat := MAKE_VR 'O' 'D'
def E_OF : Nat := MAKE_VR 'O' 'F'
def E_OW : Nat := MAKE_VR 'O' 'W'
def E_PN : Nat := MAKE_VR 'P' 'N'
def E_SH : Nat := MAKE_VR 'S' 'H'
def E_SL : Nat := MAKE_VR 'S' 'L'
def E_SQ : Nat := MAKE_VR 'S' 'Q'
def E_SS : Nat := MAKE_VR 'S' 'S'
def E_ST : Nat := MAKE_VR 'S' 'T'
def E_TM : Nat := MAKE_VR 'T' 'M'
def E_UI : Nat := MAKE_VR 'U' 'I'
def E_UL : Nat := MAKE_VR 'U' 'L'
def E_UN : Nat := MAKE_VR 'U' 'N'
def E_US : Nat := MAKE_VR 'U' 'S'
def E_UT : Nat := MAKE_VR 'U' 'T'

/-- Function `isvr_valid`, on the two bytes `uvr.str`: 0 as soon as one of them is outside
`'A'..'Z'`, 1 otherwise. -/
def isvr_valid (uvr : Nat → Byte) : Nat :=
  if (uvr 0).val < 'A'.toNat ∨ (uvr 0).val > 'Z'.toNat then 0
  else if (uvr 1).val < 'A'.toNat ∨ (uvr 1).val > 'Z'.toNat then 0
  else 1

/-- Function `isvr32`: the `switch` over the VR code; the first group of labels returns 0
(16-bit length), the second group and `default` return 1 (32-bit length). -/
def isvr32 (vr : Nat) : Nat :=
  if vr = E_AE ∨ vr = E_AS ∨ vr = E_AT ∨ vr = E_CS ∨ vr = E_DA ∨ vr = E_DS ∨ vr = E_DT
      ∨ vr = E_FD ∨ vr = E_FL ∨ vr = E_IS ∨ vr = E_LO ∨ vr = E_LT ∨ vr = E_PN ∨ vr = E_SH
      ∨ vr = E_SL ∨ vr = E_SS ∨ vr = E_ST ∨ vr = E_TM ∨ vr = E_UI ∨ vr = E_UL
      ∨ vr = E_US then
    0
  else if vr = E_OB ∨ vr = E_OD ∨ vr = E_OF ∨ vr = E_OW ∨ vr = E_SQ ∨ vr = E_UN
      ∨ vr = E_UT then
    1
  else
    1

/-- The short-form catalog as the specification lists it: AE, AS, AT, CS, DA, DS, DT,
FD, FL, IS, LO, LT, PN, SH, SL, SS, ST, TM, UI, UL, US. -/
def short_form_catalog : List (Char × Char) :=
  [('A', 'E'), ('A', 'S'), ('A', 'T'), ('C', 'S'), ('D', 'A'), ('D', 'S'), ('D', 'T'),
   ('F', 'D'), ('F', 'L'), ('I', 'S'), ('L', 'O'), ('L', 'T'), ('P', 'N'), ('S', 'H'),
   ('S', 'L'), ('S', 'S'), ('S', 'T'), ('T', 'M'), ('U', 'I'), ('U', 'L'), ('U', 'S')]

/-- The 16-bit code of a two-letter VR as a little-endian host loads it from the wire:
first letter in the low byte, second letter in the high byte. -/
def vr_code (c : Char × Char) : Nat :=
  c.1.toNat + 256 * c.2.toNat

/-- The tag four wire bytes stand for: little-endian group, then little-endian element,
packed by `MAKE_TAG`. -/
def wire_tag (b0 b1 b2 b3 : Byte) : Nat :=
  MAKE_TAG (b0.val + 256 * b1.val) (b2.val + 256 * b3.val)

/-- The struct `data_element`: `tag_t tag; vr_t vr; vl_t vl`. -/
structure data_element where
  tag : Nat
  vr : Nat
  vl : Nat
deriving DecidableEq

/-- Function `tag_equal_to`: `de->tag == tag`. -/
def tag_equal_to (de : data_element) (tag : Nat) : Bool :=
  de.tag == tag

/-- Function `tag_is_lower`: `de->tag < tag`. -/
def tag_is_lower (de : data_element) (tag : Nat) : Bool :=
  decide (de.tag < tag)

/-- Function `is_start`: the tag is Item-start (FFFE,E000), whatever the length. -/
def is_start (de : data_element) : Bool :=
  de.tag == MAKE_TAG 0xfffe 0xe000

/-- Function `is_end_item`: the tag is Item-Delimitation (FFFE,E00D); then the length is
asserted to be 0. -/
def is_end_item (de : data_element) : Run Bool := do
  let b := de.tag == MAKE_TAG 0xfffe 0xe00d
  if b then
    av_assert0 (de.vl == 0)
    pure b
  else
    pure b

/-- Function `is_end_sq`: the tag is Sequence-Delimitation (FFFE,E0DD); then the length is
asserted to be 0. -/
def is_end_sq (de : data_element) : Run Bool := do
  let b := de.tag == MAKE_TAG 0xfffe 0xe0dd
  if b then
    av_assert0 (de.vl == 0)
    pure b
  else
    pure b

/-- Function `is_encapsulated_pixel_data`: the tag is Pixel Data (7FE0,0010); then undefined
length and VR OB or OW are asserted. -/
def is_encapsulated_pixel_data (de : data_element) : Run Bool := do
  let is_pixel_data := tag_equal_to de (MAKE_TAG 0x7fe0 0x0010)
  if is_pixel_data then
    av_assert0 (de.vl == 0xFFFFFFFF)
    av_assert0 (de.vr == E_OB || de.vr == E_OW)
    pure true
  else
    pure false

/-- Function `is_undef_len`: the length is `(uint32_t)-1`; then
`de->vr == E_SQ || is_encapsulated_pixel_data(de) || is_start(de)` is asserted, the
operands evaluated left to right until one holds. -/
def is_undef_len (de : data_element) : Run Bool := do
  let b := de.vl == 0xFFFFFFFF
  if b then
    if de.vr == E_SQ then
      pure b
    else
      let e ← is_encapsulated_pixel_data de
      if e then
        pure b
      else
        av_assert0 (is_start de)
        pure b
  else
    pure b

/-- Function `compute_len`: asserts a defined length, then `4 + 4 + 4 + vl` for a VR with a
32-bit length field and `4 + 4 + vl` otherwise, in `uint32_t`. -/
def compute_len (de : data_element) : Run Nat := do
  let u ← is_undef_len de
  av_assert0 (!u)
  if isvr32 de.vr ≠ 0 then
    pure ((4 + 4 + 4 + de.vl) % 4294967296)
  else
    pure ((4 + 4 + de.vl) % 4294967296)

/-- Function `compute_undef_len`: asserts an undefined length and `len != (uint32_t)-1`, then
`4 + 4 + 4 + len`, in `uint32_t`. -/
def compute_undef_len (de : data_element) (len : Nat) : Run Nat := do
  let u ← is_undef_len de
  av_assert0 u
  av_assert0 (len != 0xFFFFFFFF)
  pure ((4 + 4 + 4 + len) % 4294967296)

/-! ## The three element readers

Each reader takes the caller's element (whose tag is the lower bound) and gives back
the `int` it returns, the caller's element afterwards and the source afterwards. -/

/-- Function `read_explicit`: tag, VR, then a 16-bit length or two padding bytes and a 32-bit
length. -/
def read_explicit (stk : Stack) (pb : AVIOContext) (de : data_element) :
    Run (Int × data_element × AVIOContext) :=
  -- Tag
  let r1 := avio_read pb 4
  if r1.ret ≤ 0 then .ret (AVERROR EIO, de, r1.pb) else
  let t := SWAP_TAG (fill stk.t r1.got)
  -- av_assert0( tag_is_lower( de, t.tag ) )
  if !tag_is_lower de t then .abort else
  -- Value Representation
  let r2 := avio_read r1.pb 2
  if r2.ret ≤ 0 then .ret (AVERROR EIO, de, r2.pb) else
  let vr := fill stk.vr r2.got
  -- if( !isvr_valid(vr) ) { av_assert0( 0 ); return AVERROR_INVALIDDATA; }
  if isvr_valid vr = 0 then .abort else
  -- padding and/or 16bits VL
  let r3 := avio_read r2.pb 2
  if r3.ret ≤ 0 then .ret (AVERROR EIO, de, r3.pb) else
  let vl16 := fill stk.vl16 r3.got
  -- Value Length
  if isvr32 (u16 vr) ≠ 0 then
    -- padding must be set to zero
    if u16 vl16 ≠ 0 then .ret (AVERROR_INVALIDDATA, de, r3.pb) else
    let r4 := avio_read r3.pb 4
    if r4.ret ≤ 0 then .ret (AVERROR EIO, de, r4.pb) else
    .ret (0, { tag := t, vr := u16 vr, vl := u32 (fill stk.vl r4.got) }, r4.pb)
  else
    -- vl.vl = vl16.vl16
    .ret (0, { tag := t, vr := u16 vr, vl := u16 vl16 }, r3.pb)

/-- Function `read_explicit_undef`: as `read_explicit`, with the Item-Delimitation tag
(FFFE,E00D) read as tag and 32-bit length only. -/
def read_explicit_undef (stk : Stack) (pb : AVIOContext) (de : data_element) :
    Run (Int × data_element × AVIOContext) :=
  -- Tag
  let r1 := avio_read pb 4
  if r1.ret ≤ 0 then .ret (AVERROR EIO, de, r1.pb) else
  let t := SWAP_TAG (fill stk.t r1.got)
  -- av_assert0( tag_is_lower( de, t.tag ) )
  if !tag_is_lower de t then .abort else
  if t = MAKE_TAG 0xfffe 0xe00d then
    -- Special case:
    let r2 := avio_read r1.pb 4
    if r2.ret ≤ 0 then .ret (AVERROR EIO, de, r2.pb) else
    let vl := u32 (fill stk.vl r2.got)
    if vl ≠ 0 then .ret (AVERROR_INVALIDDATA, de, r2.pb) else
    .ret (0, { tag := t, vr := E_INVALID, vl := vl }, r2.pb)
  else
    -- Value Representation
    -- av_assert0( get_group(t.tag) != 0xfffe )
    if !(get_group t != 0xfffe) then .abort else
    let r2 := avio_read r1.pb 2
    if r2.ret ≤ 0 then .ret (AVERROR EIO, de, r2.pb) else
    let vr := fill stk.vr r2.got
    if isvr_valid vr = 0 then .ret (AVERROR_INVALIDDATA, de, r2.pb) else
    -- padding and/or 16bits VL
    let r3 := avio_read r2.pb 2
    if r3.ret ≤ 0 then .ret (AVERROR EIO, de, r3.pb) else
    let vl16 := fill stk.vl16 r3.got
    -- Value Length
    if isvr32 (u16 vr) ≠ 0 then
      -- padding must be set to zero
      if u16 vl16 ≠ 0 then .ret (AVERROR_INVALIDDATA, de, r3.pb) else
      let r4 := avio_read r3.pb 4
      if r4.ret ≤ 0 then .ret (AVERROR EIO, de, r4.pb) else
      .ret (0, { tag := t, vr := u16 vr, vl := u32 (fill stk.vl r4.got) }, r4.pb)
    else
      .ret (0, { tag := t, vr := u16 vr, vl := u16 vl16 }, r3.pb)

/-- Function `read_implicit`: tag, then always a 32-bit length; the VR is `E_INVALID`. -/
def read_implicit (stk : Stack) (pb : AVIOContext) (de : data_element) :
    Run (Int × data_element × AVIOContext) :=
  -- Tag
  let r1 := avio_read pb 4
  if r1.ret ≤ 0 then .ret (AVERROR EIO, de, r1.pb) else
  let t := SWAP_TAG (fill stk.t r1.got)
  -- av_assert0( tag_is_lower( de, t.tag ) )
  if !tag_is_lower de t then .abort else
  -- Value Length (always 32bits)
  let r2 := avio_read r1.pb 4
  if r2.ret ≤ 0 then .ret (AVERROR EIO, de, r2.pb) else
  .ret (0, { tag := t, vr := E_INVALID, vl := u32 (fill stk.vl r2.got) }, r2.pb)

/-! ## The undefined-length scanners

Every `do ... while(1)` loop is unrolled at most `fuel` times; each iteration and each
nested scan uses one unit. The scanners give back the `uint32_t` they return and the
source afterwards. -/

/-- The loop of `read_encapsulated_pixel_data`, entered with the local element `de`
and the running total `epdlen`. -/
def read_encapsulated_pixel_data_loop (stk : Stack) :
    Nat → AVIOContext → data_element → Nat → Run (Nat × AVIOContext)
  | 0, _, _, _ => .nofuel
  | fuel + 1, pb, de, epdlen => do
    -- restart for each Item
    let de := { de with tag := 0 }
    -- Item start
    let r ← read_implicit stk pb de
    let b := r.1
    let de := r.2.1
    let pb := r.2.2
    av_assert0 (b != 0)
    -- end of SQ
    let epdlen := (epdlen + (4 + 4)) % 4294967296
    let e ← is_end_sq de
    if e then
      -- post-condition
      let e2 ← is_end_sq de
      av_assert0 e2
      pure (epdlen, pb)
    else
      av_assert0 (is_start de)
      let pb := avio_skip pb de.vl
      read_encapsulated_pixel_data_loop stk fuel pb de ((epdlen + de.vl) % 4294967296)

/-- Function `read_encapsulated_pixel_data`: the local `de` starts uninitialised, `epdlen`
at 0. -/
def read_encapsulated_pixel_data (stk : Stack) (fuel : Nat) (pb : AVIOContext) :
    Run (Nat × AVIOContext) :=
  read_encapsulated_pixel_data_loop stk fuel pb
    { tag := 0, vr := stk.de_vr.val, vl := stk.de_vl.val } 0

mutual

/-- The loop of `read_item_undef`, entered with the local element `de` and the running
total `itemlen`. -/
def read_item_undef_loop (stk : Stack) :
    Nat → AVIOContext → data_element → Nat → Run (Nat × AVIOContext)
  | 0, _, _, _ => .nofuel
  | fuel + 1, pb, de, itemlen => do
    -- carefully read an Item End or an Explicit Data Element:
    let r ← read_explicit_undef stk pb de
    let b := r.1
    let de := r.2.1
    let pb := r.2.2
    av_assert0 (b != 0)
    let e ← is_end_item de
    if e then
      -- end of Item
      pure ((itemlen + (4 + 4)) % 4294967296, pb)
    else
      let u ← is_undef_len de
      if u then
        -- Either undefined SQ or encapsulated Pixel Data:
        let is_encapsulated ← is_encapsulated_pixel_data de
        if is_encapsulated then
          let s ← read_encapsulated_pixel_data stk fuel pb
          let l ← compute_undef_len de s.1
          read_item_undef_loop stk fuel s.2 de ((itemlen + l) % 4294967296)
        else
          let s ← read_sq_undef_loop stk fuel pb
            { tag := 0, vr := stk.de_vr.val, vl := stk.de_vl.val } 0
          av_assert0 (de.vr == E_SQ)
          let l ← compute_undef_len de s.1
          read_item_undef_loop stk fuel s.2 de ((itemlen + l) % 4294967296)
      else
        let l ← compute_len de
        read_item_undef_loop stk fuel pb de ((itemlen + l) % 4294967296)

/-- The loop of `read_sq_undef`, entered with the local element `de` and the running
total `seqlen`. -/
def read_sq_undef_loop (stk : Stack) :
    Nat → AVIOContext → data_element → Nat → Run (Nat × AVIOContext)
  | 0, _, _, _ => .nofuel
  | fuel + 1, pb, de, seqlen => do
    -- restart tag for each new Item:
    let de := { de with tag := 0 }
    -- Item start
    let r ← read_implicit stk pb de
    let b := r.1
    let de := r.2.1
    let pb := r.2.2
    av_assert0 (b != 0)
    let e ← is_end_sq de
    if e then
      -- end of SQ
      av_assert0 (de.vl == 0)
      let seqlen := (seqlen + (4 + 4)) % 4294967296
      -- post-condition
      let e2 ← is_end_sq de
      av_assert0 e2
      pure (seqlen, pb)
    else
      av_assert0 (is_start de)
      let u ← is_undef_len de
      if u then
        let s ← read_item_undef_loop stk fuel pb { tag := 0, vr := 0, vl := 0 } 0
        read_sq_undef_loop stk fuel s.2 de ((seqlen + (4 + 4 + s.1)) % 4294967296)
      else
        -- skip over an entire Item
        read_sq_undef_loop stk fuel (avio_skip pb de.vl) de
          ((seqlen + (4 + 4 + de.vl)) % 4294967296)

end

/-- Function `read_item_undef`: the local `de` starts as `{ 0 }`, `itemlen` at 0. -/
def read_item_undef (stk : Stack) (fuel : Nat) (pb : AVIOContext) :
    Run (Nat × AVIOContext) :=
  read_item_undef_loop stk fuel pb { tag := 0, vr := 0, vl := 0 } 0

/-- Function `read_sq_undef`: the local `de` starts uninitialised, `seqlen` at 0. -/
def read_sq_undef (stk : Stack) (fuel : Nat) (pb : AVIOContext) :
    Run (Nat × AVIOContext) :=
  read_sq_undef_loop stk fuel pb { tag := 0, vr := stk.de_vr.val, vl := stk.de_vl.val } 0

/-- The `while` loop of `read_dataset`, entered with the local element `de`; it gives
back the `int` that `read_dataset` returns and the source afterwards. -/
def read_dataset_loop (stk : Stack) :
    Nat → AVIOContext → data_element → Run (Int × AVIOContext)
  | 0, _, _ => .nofuel
  | fuel + 1, pb, de => do
    let r ← read_explicit stk pb de
    let ret := r.1
    let de := r.2.1
    let pb := r.2.2
    if ret == 0 && tag_is_lower de (MAKE_TAG 0x7fe0 0x0010) then
      av_assert0 (get_group de.tag != 0xfffe)
      av_assert0 (decide (get_group de.tag ≤ 0x7fe0))
      let u ← is_undef_len de
      if u then
        if de.vr != E_SQ then
          av_assert0 (de.vr == E_UN)
          av_assert0 false
        else
          pure ()
        let s ← read_sq_undef stk fuel pb
        read_dataset_loop stk fuel s.2 de
      else
        if de.vr == E_SQ then
          -- skip over an entire SQ
          av_assert0 (de.vr == E_SQ)
          read_dataset_loop stk fuel (avio_skip pb de.vl) de
        else
          read_dataset_loop stk fuel (avio_skip pb de.vl) de
    else
      pure (0, pb)

/-- Function `read_dataset`: the local `de` starts as `{ 0 }`. -/
def read_dataset (stk : Stack) (fuel : Nat) (pb : AVIOContext) : Run (Int × AVIOContext) :=
  read_dataset_loop stk fuel pb { tag := 0, vr := 0, vl := 0 }

/-! ## Vocabulary of the statements -/

/-- What a reader's result can be: a negative error code with the caller's element
untouched, or 0 with an element whose tag is above the caller's; an aborted call is
allowed, an unfinished one is not (the readers have no loop). -/
def reader_shape (de : data_element) : Run (Int × data_element × AVIOContext) → Prop
  | .ret (c, de', _) => (c < 0 ∧ de' = de) ∨ (c = 0 ∧ de.tag < de'.tag)
  | .abort => True
  | .nofuel => False

/-- The caller's element `data_element de = { 0 }`. -/
def de_zero : data_element :=
  { tag := 0, vr := 0, vl := 0 }

/-- Scenario 1: tag (0008,0000), VR `UL`, 16-bit length 4, value `10 00 00 00`. -/
def scenario1_source : List Byte :=
  [0x08, 0x00, 0x00, 0x00, 0x55, 0x4c, 0x04, 0x00, 0x10, 0x00, 0x00, 0x00]

/-- Scenario 1 cut after its seventh byte: the 16-bit length field is half there. -/
def scenario1_truncated : List Byte :=
  [0x08, 0x00, 0x00, 0x00, 0x55, 0x4c, 0x04]

/-- Scenario 2: Pixel Data (7FE0,0010), VR `OB`, padding, length FFFFFFFF, then an
empty Basic Offset Table item, one fragment of 4 bytes and the Sequence-Delimitation
element. -/
def scenario2_source : List Byte :=
  [0xe0, 0x7f, 0x10, 0x00, 0x4f, 0x42, 0x00, 0x00, 0xff, 0xff, 0xff, 0xff,
   0xfe, 0xff, 0x00, 0xe0, 0x00, 0x00, 0x00, 0x00,
   0xfe, 0xff, 0x00, 0xe0, 0x04, 0x00, 0x00, 0x00, 0x01, 0x02, 0x03, 0x04,
   0xfe, 0xff, 0xdd, 0xe0, 0x00, 0x00, 0x00, 0x00]

/-- The fragment stream of Scenario 2, that is Scenario 2 without the 12 bytes of the
Pixel Data header. -/
def scenario2_fragments : List Byte :=
  [0xfe, 0xff, 0x00, 0xe0, 0x00, 0x00, 0x00, 0x00,
   0xfe, 0xff, 0x00, 0xe0, 0x04, 0x00, 0x00, 0x00, 0x01, 0x02, 0x03, 0x04,
   0xfe, 0xff, 0xdd, 0xe0, 0x00, 0x00, 0x00, 0x00]

/-- Scenario 3, the body of the sequence: one Item (FFFE,E000) of length 10, its ten
bytes, then the Sequence-Delimitation element (FFFE,E0DD) of length 0. -/
def scenario3_source : List Byte :=
  [0xfe, 0xff, 0x00, 0xe0, 0x0a, 0x00, 0x00, 0x00,
   1, 2, 3, 4, 5, 6, 7, 8, 9, 10,
   0xfe, 0xff, 0xdd, 0xe0, 0x00, 0x00, 0x00, 0x00]

/-- Scenario 4: tag (0010,0010) followed by the VR bytes `Q_`. -/
def scenario4_source : List Byte :=
  [0x10, 0x00, 0x10, 0x00, 0x51, 0x5f, 0x00, 0x00]

/-- Scenario 5: (0010,0010) `PN` of length 0, then (0010,0005) `CS` of length 0. -/
def scenario5_source : List Byte :=
  [0x10, 0x00, 0x10, 0x00, 0x50, 0x4e, 0x00, 0x00,
   0x10, 0x00, 0x05, 0x00, 0x43, 0x53, 0x00, 0x00]

/-- The body of an undefined-length item: the element of Scenario 1 with its four value
bytes, then the Item-Delimitation element (FFFE,E00D) of length 0. -/
def item_body_source : List Byte :=
  [0x08, 0x00, 0x00, 0x00, 0x55, 0x4c, 0x04, 0x00, 0x10, 0x00, 0x00, 0x00,
   0xfe, 0xff, 0x0d, 0xe0, 0x00, 0x00, 0x00, 0x00]

/-- An Item-start tag (FFFE,E000) where an explicit-VR element is expected, followed by
the VR `OB` and the padding bytes `01 00`. -/
def padded_item_start_source : List Byte :=
  [0xfe, 0xff, 0x00, 0xe0, 0x4f, 0x42, 0x01, 0x00]

/-- Pixel Data (7FE0,0010), VR `OB`, with the padding bytes `01 00`. -/
def bad_padding_source : List Byte :=
  [0xe0, 0x7f, 0x10, 0x00, 0x4f, 0x42, 0x01, 0x00, 0xff, 0xff, 0xff, 0xff]

/-- The tag a reader holds after its first `avio_read` and `SWAP_TAG`: the four tag
bytes of the wire, or, after a short read, the bytes read over the stale contents of
`t`. -/
def tag_read (stk : Stack) (pb : AVIOContext) : Nat :=
  SWAP_TAG (fill stk.t (avio_read pb 4).got)

/-- An element (0008,0000) with VR `UN` and undefined length. -/
def undefined_un_source : List Byte :=
  [0x08, 0x00, 0x00, 0x00, 0x55, 0x4e, 0x00, 0x00, 0xff, 0xff, 0xff, 0xff]

/-- An Item-start tag (FFFE,E000) and the first byte only of its 32-bit length. -/
def truncated_item_start_source : List Byte :=
  [0xfe, 0xff, 0x00, 0xe0, 0x0a]

/-- An Item-start tag (FFFE,E000) with the undefined length FFFFFFFF. -/
def undefined_item_start_source : List Byte :=
  [0xfe, 0xff, 0x00, 0xe0, 0xff, 0xff, 0xff, 0xff]

/-- An Item-start tag (FFFE,E000) where an explicit-VR element is expected, followed by
the VR `UL` and the 16-bit length 4. -/
def item_start_ul_source : List Byte :=
  [0xfe, 0xff, 0x00, 0xe0, 0x55, 0x4c, 0x04, 0x00]

/-- An Item-Delimitation tag (FFFE,E00D) with the length 1. -/
def item_end_length_one_source : List Byte :=
  [0xfe, 0xff, 0x0d, 0xe0, 0x01, 0x00, 0x00, 0x00]

/-- An Item-Delimitation tag (FFFE,E00D) with the length 0. -/
def item_end_source : List Byte :=
  [0xfe, 0xff, 0x0d, 0xe0, 0x00, 0x00, 0x00, 0x00]

/-- The last tag below Pixel Data, (7FE0,000F), with VR `UL` and length 0. -/
def last_tag_source : List Byte :=
  [0xe0, 0x7f, 0x0f, 0x00, 0x55, 0x4c, 0x00, 0x00]

/-! ## Datasets on the wire -/

/-- The low byte of a number. -/
def byte_of (n : Nat) : Byte :=
  ⟨n % 256, Nat.mod_lt n (by decide)⟩

/-- The header of an explicit-VR data element as the wire holds it: the four tag bytes,
the two VR letters and the value length. -/
structure wire_header where
  b0 : Byte
  b1 : Byte
  b2 : Byte
  b3 : Byte
  v0 : Byte
  v1 : Byte
  vl : Nat

/-- The tag of a wire header. -/
def wire_header.tag (h : wire_header) : Nat :=
  wire_tag h.b0 h.b1 h.b2 h.b3

/-- The 16-bit code of the VR letters of a wire header. -/
def wire_header.vr (h : wire_header) : Nat :=
  h.v0.val + 256 * h.v1.val

/-- The bytes of a wire header: for a VR of the short-form catalog the 16-bit
little-endian length follows the VR, for any other VR two zero bytes and the 32-bit
little-endian length. -/
def wire_header.bytes (h : wire_header) : List Byte :=
  if h.vr ∈ short_form_catalog.map vr_code then
    [h.b0, h.b1, h.b2, h.b3, h.v0, h.v1, byte_of h.vl, byte_of (h.vl / 256)]
  else
    [h.b0, h.b1, h.b2, h.b3, h.v0, h.v1, 0, 0, byte_of h.vl, byte_of (h.vl / 256),
     byte_of (h.vl / 65536), byte_of (h.vl / 16777216)]

/-- A wire header is valid when both VR letters are in `'A'..'Z'` and the length fits
its field: 16 bits for a short-form VR, 32 bits otherwise. -/
def wire_header.valid (h : wire_header) : Prop :=
  (('A'.toNat ≤ h.v0.val ∧ h.v0.val ≤ 'Z'.toNat) ∧
    ('A'.toNat ≤ h.v1.val ∧ h.v1.val ≤ 'Z'.toNat)) ∧
  (if h.vr ∈ short_form_catalog.map vr_code then h.vl < 65536 else h.vl < 4294967296)

instance (h : wire_header) : Decidable h.valid := by
  unfold wire_header.valid
  infer_instance

/-- The element a wire header stands for. -/
def wire_header.element (h : wire_header) : data_element :=
  { tag := h.tag, vr := h.vr, vl := h.vl }

/-- The bytes of a run of data elements, each a header followed by its value bytes. -/
def dataset_bytes : List (wire_header × List Byte) → List Byte
  | [] => []
  | p :: rest => p.1.bytes ++ p.2 ++ dataset_bytes rest

/-- A dataset of three elements and the header that ends the scan: (0008,0000) `UL` of
length 4, (0009,0010) `OB` of length 2, (0010,0010) `PN` of length 0, then Pixel Data
(7FE0,0010) `OB` of undefined length and the first bytes of its value. -/
def dataset_source : List Byte :=
  [0x08, 0x00, 0x00, 0x00, 0x55, 0x4c, 0x04, 0x00, 0x10, 0x00, 0x00, 0x00,
   0x09, 0x00, 0x10, 0x00, 0x4f, 0x42, 0x00, 0x00, 0x02, 0x00, 0x00, 0x00, 0xaa, 0xbb,
   0x10, 0x00, 0x10, 0x00, 0x50, 0x4e, 0x00, 0x00,
   0xe0, 0x7f, 0x10, 0x00, 0x4f, 0x42, 0x00, 0x00, 0xff, 0xff, 0xff, 0xff,
   0xfe, 0xff, 0x00, 0xe0, 0x00, 0x00, 0x00, 0x00]

/-- The three elements of `dataset_source`, each with its value bytes. -/
def dataset_elements : List (wire_header × List Byte) :=
  [({ b0 := 0x08, b1 := 0x00, b2 := 0x00, b3 := 0x00, v0 := 0x55, v1 := 0x4c, vl := 4 },
    [0x10, 0x00, 0x00, 0x00]),
   ({ b0 := 0x09, b1 := 0x00, b2 := 0x10, b3 := 0x00, v0 := 0x4f, v1 := 0x42, vl := 2 },
    [0xaa, 0xbb]),
   ({ b0 := 0x10, b1 := 0x00, b2 := 0x10, b3 := 0x00, v0 := 0x50, v1 := 0x4e, vl := 0 },
    [])]

/-- The Pixel Data header of `dataset_source`: VR `OB`, undefined length. -/
def pixel_data_header : wire_header :=
  { b0 := 0xe0, b1 := 0x7f, b2 := 0x10, b3 := 0x00, v0 := 0x4f, v1 := 0x42,
    vl := 0xFFFFFFFF }

/-- A dataset whose first element has the tag (0000,0000), `UL` of length 0, followed by
the Pixel Data header. -/
def zero_tag_source : List Byte :=
  [0x00, 0x00, 0x00, 0x00, 0x55, 0x4c, 0x00, 0x00,
   0xe0, 0x7f, 0x10, 0x00, 0x4f, 0x42, 0x00, 0x00, 0xff, 0xff, 0xff, 0xff]

/-- The one element of `zero_tag_source`. -/
def zero_tag_elements : List (wire_header × List Byte) :=
  [({ b0 := 0x00, b1 := 0x00, b2 := 0x00, b3 := 0x00, v0 := 0x55, v1 := 0x4c, vl := 0 },
    [])]

/-! ## Basic facts -/

@[simp] theorem Run.pure_eq {α : Type} (a : α) : (pure a : Run α) = Run.ret a := rfl

@[simp] theorem Run.ret_bind {α β : Type} (a : α) (f : α → Run β) :
    (Run.ret a >>= f) = f a := rfl

@[simp] theorem Run.abort_bind {α β : Type} (f : α → Run β) :
    (Run.abort >>= f) = Run.abort := rfl

@[simp] theorem Run.nofuel_bind {α β : Type} (f : α → Run β) :
    (Run.nofuel >>= f) = Run.nofuel := rfl

theorem tag_item_start : MAKE_TAG 0xfffe 0xe000 = 4294893568 := by decide

theorem tag_item_end : MAKE_TAG 0xfffe 0xe00d = 4294893581 := by decide

theorem tag_sq_end : MAKE_TAG 0xfffe 0xe0dd = 4294893789 := by decide

theorem tag_pixel_data : MAKE_TAG 0x7fe0 0x0010 = 2145386512 := by decide

theorem get_group_item_end : get_group (MAKE_TAG 0xfffe 0xe00d) = 0xfffe := by decide

theorem toNat_A : 'A'.toNat = 65 := rfl

theorem toNat_Z : 'Z'.toNat = 90 := rfl

/-! ## The VR catalog -/

theorem short_form_codes :
    short_form_catalog.map vr_code =
      [E_AE, E_AS, E_AT, E_CS, E_DA, E_DS, E_DT, E_FD, E_FL, E_IS, E_LO, E_LT, E_PN, E_SH,
       E_SL, E_SS, E_ST, E_TM, E_UI, E_UL, E_US] := by
  decide

theorem isvr32_catalog (vr : Nat) :
    (vr ∈ short_form_catalog.map vr_code → isvr32 vr = 0) ∧
    (vr ∉ short_form_catalog.map vr_code → isvr32 vr = 1) := by
  rw [short_form_codes]
  unfold isvr32
  simp only [List.mem_cons, List.mem_singleton, List.not_mem_nil, or_false]
  constructor
  · intro h
    rw [if_pos h]
  · intro h
    rw [if_neg h]
    split <;> rfl

theorem isvr_valid_iff (uvr : Nat → Byte) :
    isvr_valid uvr = 1 ↔
      ('A'.toNat ≤ (uvr 0).val ∧ (uvr 0).val ≤ 'Z'.toNat) ∧
      ('A'.toNat ≤ (uvr 1).val ∧ (uvr 1).val ≤ 'Z'.toNat) := by
  unfold isvr_valid
  simp only [toNat_A, toNat_Z]
  split_ifs with h1 h2
  · simp; omega
  · simp; omega
  · simp; omega

theorem isvr_valid_zero_or_one (uvr : Nat → Byte) :
    isvr_valid uvr = 0 ∨ isvr_valid uvr = 1 := by
  unfold isvr_valid
  split_ifs <;> simp

theorem isvr_valid_fill_bad (buf : Nat → Byte) (v : List Byte) (hlen : v.length ≤ 2)
    (hv : ∃ x ∈ v, x.val < 'A'.toNat ∨ 'Z'.toNat < x.val) :
    isvr_valid (fill buf v) = 0 := by
  have h01 := isvr_valid_zero_or_one (fill buf v)
  rcases h01 with h0 | h1
  · exact h0
  · exfalso
    rw [isvr_valid_iff] at h1
    obtain ⟨x, hx, hbad⟩ := hv
    simp only [toNat_A, toNat_Z] at h1 hbad
    match v, hlen, hx with
    | [a], _, hx =>
      simp at hx
      subst hx
      simp [fill] at h1
      omega
    | [a, b], _, hx =>
      simp [fill] at h1
      simp at hx
      rcases hx with rfl | rfl <;> omega

/-! ## The length accountants -/

theorem compute_len_eq (de : data_element) (h : de.vl ≠ 0xFFFFFFFF) :
    compute_len de =
      .ret (if isvr32 de.vr = 0 then (8 + de.vl) % 4294967296
            else (12 + de.vl) % 4294967296) := by
  simp [compute_len, is_undef_len, h, av_assert0]
  split <;> rfl

theorem compute_undef_len_eq (de : data_element) (len : Nat) (h : de.vl = 0xFFFFFFFF)
    (hl : de.vr = E_SQ ∨ (de.tag = MAKE_TAG 0x7fe0 0x0010 ∧ (de.vr = E_OB ∨ de.vr = E_OW)) ∨
      de.tag = MAKE_TAG 0xfffe 0xe000) (hlen : len ≠ 0xFFFFFFFF) :
    compute_undef_len de len = .ret ((12 + len) % 4294967296) := by
  rcases hl with h1 | ⟨h1, h2⟩ | h1
  · simp [compute_undef_len, is_undef_len, h, h1, hlen, av_assert0]
  · by_cases hsq : de.vr = E_SQ
    · simp [compute_undef_len, is_undef_len, h, hsq, hlen, av_assert0]
    · simp [compute_undef_len, is_undef_len, h, hsq, h1, h2, hlen, av_assert0,
        is_encapsulated_pixel_data, tag_equal_to]
  · by_cases hsq : de.vr = E_SQ
    · simp [compute_undef_len, is_undef_len, h, hsq, hlen, av_assert0]
    · simp [compute_undef_len, is_undef_len, h, hsq, h1, hlen, av_assert0,
        is_encapsulated_pixel_data, tag_equal_to, is_start, tag_item_start, tag_pixel_data]

/-! ## Reading from the source -/

theorem next_length_le (pb : AVIOContext) (n : Nat) : (pb.next n).length ≤ n := by
  simp [AVIOContext.next, List.length_take]

theorem avio_read_after (pb : AVIOContext) (k n N : Nat) (xs : List Byte) (hN : k + n ≤ N)
    (h : ((pb.next N).drop k).take n = xs) (hx : xs ≠ []) :
    avio_read { data := pb.data, pos := pb.pos + k } n =
      { ret := (xs.length : Int), got := xs,
        pb := { data := pb.data, pos := pb.pos + (k + xs.length) } } := by
  have hgot : (pb.data.drop (pb.pos + k)).take n = xs := by
    rw [← h, AVIOContext.next, List.drop_take, List.take_take, List.drop_drop,
      Nat.min_eq_left (by omega)]
  have hl : xs.length ≠ 0 := fun h0 => hx (List.length_eq_zero.mp h0)
  simp [avio_read, hgot, hl, Nat.add_assoc]

theorem avio_read_first (pb : AVIOContext) (n N : Nat) (xs : List Byte) (hN : n ≤ N)
    (h : (pb.next N).take n = xs) (hx : xs ≠ []) :
    avio_read pb n =
      { ret := (xs.length : Int), got := xs,
        pb := { data := pb.data, pos := pb.pos + xs.length } } := by
  have := avio_read_after pb 0 n N xs (by omega) (by simpa using h) hx
  simpa using this

theorem wire_tag_eq (buf : Nat → Byte) (b0 b1 b2 b3 : Byte) :
    SWAP_TAG (fill buf [b0, b1, b2, b3]) = wire_tag b0 b1 b2 b3 := by
  simp [SWAP_TAG, wire_tag, u16, fill]

theorem u16_fill2 (buf : Nat → Byte) (x y : Byte) :
    u16 (fill buf [x, y]) = x.val + 256 * y.val := by
  simp [u16, fill]

theorem u32_fill4 (buf : Nat → Byte) (x y z w : Byte) :
    u32 (fill buf [x, y, z, w]) =
      x.val + 256 * y.val + 65536 * z.val + 16777216 * w.val := by
  simp [u32, fill]

/-! ## The shape of a reader's result -/

theorem read_implicit_shape (stk : Stack) (pb : AVIOContext) (de : data_element) :
    reader_shape de (read_implicit stk pb de) := by
  by_cases c1 : (avio_read pb 4).ret ≤ 0
  · simp [read_implicit, c1, reader_shape, AVERROR, EIO]
  by_cases c2 : tag_is_lower de (SWAP_TAG (fill stk.t (avio_read pb 4).got)) = true
  swap
  · simp [read_implicit, c1, c2, reader_shape]
  have hlt : de.tag < SWAP_TAG (fill stk.t (avio_read pb 4).got) := by
    simpa [tag_is_lower] using c2
  by_cases c3 : (avio_read (avio_read pb 4).pb 4).ret ≤ 0
  · simp [read_implicit, c1, c2, c3, reader_shape, AVERROR, EIO]
  · simp [read_implicit, c1, c2, c3, reader_shape, hlt]

theorem read_explicit_shape (stk : Stack) (pb : AVIOContext) (de : data_element) :
    reader_shape de (read_explicit stk pb de) := by
  by_cases c1 : (avio_read pb 4).ret ≤ 0
  · simp [read_explicit, c1, reader_shape, AVERROR, EIO]
  by_cases c2 : tag_is_lower de (SWAP_TAG (fill stk.t (avio_read pb 4).got)) = true
  swap
  · simp [read_explicit, c1, c2, reader_shape]
  have hlt : de.tag < SWAP_TAG (fill stk.t (avio_read pb 4).got) := by
    simpa [tag_is_lower] using c2
  by_cases c3 : (avio_read (avio_read pb 4).pb 2).ret ≤ 0
  · simp [read_explicit, c1, c2, c3, reader_shape, AVERROR, EIO]
  by_cases c4 : isvr_valid (fill stk.vr (avio_read (avio_read pb 4).pb 2).got) = 0
  · simp [read_explicit, c1, c2, c3, c4, reader_shape]
  by_cases c5 : (avio_read (avio_read (avio_read pb 4).pb 2).pb 2).ret ≤ 0
  · simp [read_explicit, c1, c2, c3, c4, c5, reader_shape, AVERROR, EIO]
  by_cases c6 : isvr32 (u16 (fill stk.vr (avio_read (avio_read pb 4).pb 2).got)) = 0
  · simp [read_explicit, c1, c2, c3, c4, c5, c6, reader_shape, hlt]
  by_cases c7 : u16 (fill stk.vl16 (avio_read (avio_read (avio_read pb 4).pb 2).pb 2).got) = 0
  swap
  · simp [read_explicit, c1, c2, c3, c4, c5, c6, c7, reader_shape, AVERROR_INVALIDDATA]
  by_cases c8 : (avio_read (avio_read (avio_read (avio_read pb 4).pb 2).pb 2).pb 4).ret ≤ 0
  · simp [read_explicit, c1, c2, c3, c4, c5, c6, c7, c8, reader_shape, AVERROR, EIO]
  · simp [read_explicit, c1, c2, c3, c4, c5, c6, c7, c8, reader_shape, hlt]

theorem read_explicit_undef_shape (stk : Stack) (pb : AVIOContext) (de : data_element) :
    reader_shape de (read_explicit_undef stk pb de) := by
  by_cases c1 : (avio_read pb 4).ret ≤ 0
  · simp [read_explicit_undef, c1, reader_shape, AVERROR, EIO]
  by_cases c2 : tag_is_lower de (SWAP_TAG (fill stk.t (avio_read pb 4).got)) = true
  swap
  · simp [read_explicit_undef, c1, c2, reader_shape]
  have hlt : de.tag < SWAP_TAG (fill stk.t (avio_read pb 4).got) := by
    simpa [tag_is_lower] using c2
  by_cases d0 : SWAP_TAG (fill stk.t (avio_read pb 4).got) = MAKE_TAG 0xfffe 0xe00d
  · rw [d0] at c2 hlt
    by_cases d1 : (avio_read (avio_read pb 4).pb 4).ret ≤ 0
    · simp [read_explicit_undef, c1, c2, d0, d1, reader_shape, AVERROR, EIO]
    by_cases d2 : u32 (fill stk.vl (avio_read (avio_read pb 4).pb 4).got) = 0
    · simp [read_explicit_undef, c1, c2, d0, d1, d2, reader_shape, hlt]
    · simp [read_explicit_undef, c1, c2, d0, d1, d2, reader_shape, AVERROR_INVALIDDATA]
  by_cases d3 : get_group (SWAP_TAG (fill stk.t (avio_read pb 4).got)) = 0xfffe
  · simp [read_explicit_undef, c1, c2, d0, d3, reader_shape]
  by_cases c3 : (avio_read (avio_read pb 4).pb 2).ret ≤ 0
  · simp [read_explicit_undef, c1, c2, d0, d3, c3, reader_shape, AVERROR, EIO]
  by_cases c4 : isvr_valid (fill stk.vr (avio_read (avio_read pb 4).pb 2).got) = 0
  · simp [read_explicit_undef, c1, c2, d0, d3, c3, c4, reader_shape, AVERROR_INVALIDDATA]
  by_cases c5 : (avio_read (avio_read (avio_read pb 4).pb 2).pb 2).ret ≤ 0
  · simp [read_explicit_undef, c1, c2, d0, d3, c3, c4, c5, reader_shape, AVERROR, EIO]
  by_cases c6 : isvr32 (u16 (fill stk.vr (avio_read (avio_read pb 4).pb 2).got)) = 0
  · simp [read_explicit_undef, c1, c2, d0, d3, c3, c4, c5, c6, reader_shape, hlt]
  by_cases c7 : u16 (fill stk.vl16 (avio_read (avio_read (avio_read pb 4).pb 2).pb 2).got) = 0
  swap
  · simp [read_explicit_undef, c1, c2, d0, d3, c3, c4, c5, c6, c7, reader_shape, AVERROR_INVALIDDATA]
  by_cases c8 : (avio_read (avio_read (avio_read (avio_read pb 4).pb 2).pb 2).pb 4).ret ≤ 0
  · simp [read_explicit_undef, c1, c2, d0, d3, c3, c4, c5, c6, c7, c8, reader_shape, AVERROR, EIO]
  · simp [read_explicit_undef, c1, c2, d0, d3, c3, c4, c5, c6, c7, c8, reader_shape, hlt]

/-! ## The readers on a header that is wholly there -/

theorem readers_abort_tag_not_above (stk : Stack) (pb : AVIOContext) (de : data_element)
    (b0 b1 b2 b3 : Byte) (h : pb.next 4 = [b0, b1, b2, b3])
    (ht : wire_tag b0 b1 b2 b3 ≤ de.tag) :
    read_explicit stk pb de = .abort ∧ read_explicit_undef stk pb de = .abort ∧
      read_implicit stk pb de = .abort := by
  have e1 := avio_read_first pb 4 4 [b0, b1, b2, b3] (by omega) (by simp [h]) (by simp)
  have hlt : ¬ de.tag < wire_tag b0 b1 b2 b3 := by omega
  refine ⟨?_, ?_, ?_⟩
  · simp [read_explicit, e1, wire_tag_eq, tag_is_lower, hlt]
  · simp [read_explicit_undef, e1, wire_tag_eq, tag_is_lower, hlt]
  · simp [read_implicit, e1, wire_tag_eq, tag_is_lower, hlt]

theorem invalid_vr_rejected (stk : Stack) (pb : AVIOContext) (de : data_element)
    (b0 b1 b2 b3 : Byte) (v : List Byte) (h : pb.next 6 = b0 :: b1 :: b2 :: b3 :: v)
    (ht : de.tag < wire_tag b0 b1 b2 b3)
    (hv : ∃ x ∈ v, x.val < 'A'.toNat ∨ 'Z'.toNat < x.val) :
    read_explicit stk pb de = .abort ∧
    (wire_tag b0 b1 b2 b3 ≠ MAKE_TAG 0xfffe 0xe00d →
      read_explicit_undef stk pb de =
        if get_group (wire_tag b0 b1 b2 b3) = 0xfffe then .abort
        else .ret (AVERROR_INVALIDDATA, de, { data := pb.data, pos := pb.pos + (4 + v.length) })) := by
  have hlen : v.length ≤ 2 := by
    have := next_length_le pb 6
    rw [h] at this
    simp at this
    omega
  have hne : v ≠ [] := by
    rintro rfl
    simp at hv
  have e1 := avio_read_first pb 4 6 [b0, b1, b2, b3] (by omega) (by simp [h]) (by simp)
  have e2 := avio_read_after pb 4 2 6 v (by omega)
    (by simp [h]; exact hlen) hne
  have hbad := isvr_valid_fill_bad stk.vr v hlen hv
  have hpos : ¬ ((v.length : Int) ≤ 0) := by
    have : 0 < v.length := List.length_pos.mpr hne
    omega
  simp only [List.length_cons, List.length_nil, Nat.zero_add, Nat.reduceAdd, Nat.cast_ofNat] at e1
  refine ⟨?_, ?_⟩
  · simp [read_explicit, e1, e2, wire_tag_eq, tag_is_lower, ht, hbad, hpos]
  · intro hd
    by_cases hg : get_group (wire_tag b0 b1 b2 b3) = 0xfffe
    · simp [read_explicit_undef, e1, wire_tag_eq, tag_is_lower, ht, hd, hg]
    · simp [read_explicit_undef, e1, e2, wire_tag_eq, tag_is_lower, ht, hd, hg, hbad, hpos]

theorem nonzero_padding_invalid (stk : Stack) (pb : AVIOContext) (de : data_element)
    (b0 b1 b2 b3 b4 b5 b6 b7 : Byte)
    (h : pb.next 8 = [b0, b1, b2, b3, b4, b5, b6, b7])
    (ht : de.tag < wire_tag b0 b1 b2 b3)
    (hvalid : ('A'.toNat ≤ b4.val ∧ b4.val ≤ 'Z'.toNat) ∧
      ('A'.toNat ≤ b5.val ∧ b5.val ≤ 'Z'.toNat))
    (hlong : b4.val + 256 * b5.val ∉ short_form_catalog.map vr_code)
    (hpad : ¬ (b6 = 0 ∧ b7 = 0)) :
    read_explicit stk pb de =
        .ret (AVERROR_INVALIDDATA, de, { data := pb.data, pos := pb.pos + 8 }) ∧
    (get_group (wire_tag b0 b1 b2 b3) ≠ 0xfffe →
      read_explicit_undef stk pb de =
        .ret (AVERROR_INVALIDDATA, de, { data := pb.data, pos := pb.pos + 8 })) := by
  have e1 := avio_read_first pb 4 8 [b0, b1, b2, b3] (by omega) (by simp [h]) (by simp)
  have e2 := avio_read_after pb 4 2 8 [b4, b5] (by omega) (by simp [h]) (by simp)
  have e3 := avio_read_after pb 6 2 8 [b6, b7] (by omega) (by simp [h]) (by simp)
  simp only [List.length_cons, List.length_nil, Nat.zero_add, Nat.reduceAdd, Nat.cast_ofNat]
    at e1 e2 e3
  have hv : isvr_valid (fill stk.vr [b4, b5]) = 1 := by
    rw [isvr_valid_iff]
    simpa [fill] using hvalid
  have h32 : isvr32 (b4.val + 256 * b5.val) = 1 := (isvr32_catalog _).2 hlong
  have hp : b6.val + 256 * b7.val ≠ 0 := by
    intro h0
    apply hpad
    constructor <;> apply Fin.ext <;> simp <;> omega
  refine ⟨?_, ?_⟩
  · simp [read_explicit, e1, e2, e3, wire_tag_eq, tag_is_lower, ht, hv, u16_fill2, h32, hp]
  · intro hg
    have hd : wire_tag b0 b1 b2 b3 ≠ MAKE_TAG 0xfffe 0xe00d := by
      intro heq
      rw [heq] at hg
      exact hg get_group_item_end
    simp [read_explicit_undef, e1, e2, e3, wire_tag_eq, tag_is_lower, ht, hv, u16_fill2, h32,
      hp, hd, hg]

theorem read_explicit_short_form (stk : Stack) (pb : AVIOContext) (de : data_element)
    (b0 b1 b2 b3 b4 b5 b6 b7 : Byte)
    (h : pb.next 8 = [b0, b1, b2, b3, b4, b5, b6, b7])
    (ht : de.tag < wire_tag b0 b1 b2 b3)
    (hvalid : ('A'.toNat ≤ b4.val ∧ b4.val ≤ 'Z'.toNat) ∧
      ('A'.toNat ≤ b5.val ∧ b5.val ≤ 'Z'.toNat))
    (hshort : isvr32 (b4.val + 256 * b5.val) = 0) :
    read_explicit stk pb de =
      .ret (0, { tag := wire_tag b0 b1 b2 b3, vr := b4.val + 256 * b5.val,
                 vl := b6.val + 256 * b7.val }, { data := pb.data, pos := pb.pos + 8 }) := by
  have e1 := avio_read_first pb 4 8 [b0, b1, b2, b3] (by omega) (by simp [h]) (by simp)
  have e2 := avio_read_after pb 4 2 8 [b4, b5] (by omega) (by simp [h]) (by simp)
  have e3 := avio_read_after pb 6 2 8 [b6, b7] (by omega) (by simp [h]) (by simp)
  simp only [List.length_cons, List.length_nil, Nat.zero_add, Nat.reduceAdd, Nat.cast_ofNat]
    at e1 e2 e3
  have hv : isvr_valid (fill stk.vr [b4, b5]) = 1 := by
    rw [isvr_valid_iff]
    simpa [fill] using hvalid
  simp [read_explicit, e1, e2, e3, wire_tag_eq, tag_is_lower, ht, hv, u16_fill2, hshort]

theorem read_explicit_long_form (stk : Stack) (pb : AVIOContext) (de : data_element)
    (b0 b1 b2 b3 b4 b5 b8 b9 b10 b11 : Byte)
    (h : pb.next 12 = [b0, b1, b2, b3, b4, b5, 0, 0, b8, b9, b10, b11])
    (ht : de.tag < wire_tag b0 b1 b2 b3)
    (hvalid : ('A'.toNat ≤ b4.val ∧ b4.val ≤ 'Z'.toNat) ∧
      ('A'.toNat ≤ b5.val ∧ b5.val ≤ 'Z'.toNat))
    (hlong : isvr32 (b4.val + 256 * b5.val) ≠ 0) :
    read_explicit stk pb de =
      .ret (0, { tag := wire_tag b0 b1 b2 b3, vr := b4.val + 256 * b5.val,
                 vl := b8.val + 256 * b9.val + 65536 * b10.val + 16777216 * b11.val },
            { data := pb.data, pos := pb.pos + 12 }) := by
  have e1 := avio_read_first pb 4 12 [b0, b1, b2, b3] (by omega) (by simp [h]) (by simp)
  have e2 := avio_read_after pb 4 2 12 [b4, b5] (by omega) (by simp [h]) (by simp)
  have e3 := avio_read_after pb 6 2 12 [0, 0] (by omega) (by simp [h]) (by simp)
  have e4 := avio_read_after pb 8 4 12 [b8, b9, b10, b11] (by omega) (by simp [h]) (by simp)
  simp only [List.length_cons, List.length_nil, Nat.zero_add, Nat.reduceAdd, Nat.cast_ofNat]
    at e1 e2 e3 e4
  have hv : isvr_valid (fill stk.vr [b4, b5]) = 1 := by
    rw [isvr_valid_iff]
    simpa [fill] using hvalid
  simp [read_explicit, e1, e2, e3, e4, wire_tag_eq, tag_is_lower, ht, hv, u16_fill2, u32_fill4,
    hlong]

theorem read_implicit_full (stk : Stack) (pb : AVIOContext) (de : data_element)
    (b0 b1 b2 b3 b4 b5 b6 b7 : Byte)
    (h : pb.next 8 = [b0, b1, b2, b3, b4, b5, b6, b7])
    (ht : de.tag < wire_tag b0 b1 b2 b3) :
    read_implicit stk pb de =
      .ret (0, { tag := wire_tag b0 b1 b2 b3, vr := E_INVALID,
                 vl := b4.val + 256 * b5.val + 65536 * b6.val + 16777216 * b7.val },
            { data := pb.data, pos := pb.pos + 8 }) := by
  have e1 := avio_read_first pb 4 8 [b0, b1, b2, b3] (by omega) (by simp [h]) (by simp)
  have e2 := avio_read_after pb 4 4 8 [b4, b5, b6, b7] (by omega) (by simp [h]) (by simp)
  simp only [List.length_cons, List.length_nil, Nat.zero_add, Nat.reduceAdd, Nat.cast_ofNat]
    at e1 e2
  simp [read_implicit, e1, e2, wire_tag_eq, tag_is_lower, ht, u32_fill4]

theorem read_explicit_short_read (stk : Stack) (pb : AVIOContext) (de : data_element)
    (b0 b1 b2 b3 b4 b5 b6 : Byte)
    (h : pb.next 8 = [b0, b1, b2, b3, b4, b5, b6])
    (ht : de.tag < wire_tag b0 b1 b2 b3)
    (hvalid : ('A'.toNat ≤ b4.val ∧ b4.val ≤ 'Z'.toNat) ∧
      ('A'.toNat ≤ b5.val ∧ b5.val ≤ 'Z'.toNat))
    (hshort : isvr32 (b4.val + 256 * b5.val) = 0) :
    read_explicit stk pb de =
      .ret (0, { tag := wire_tag b0 b1 b2 b3, vr := b4.val + 256 * b5.val,
                 vl := b6.val + 256 * (stk.vl16 1).val },
            { data := pb.data, pos := pb.pos + 7 }) := by
  have e1 := avio_read_first pb 4 8 [b0, b1, b2, b3] (by omega) (by simp [h]) (by simp)
  have e2 := avio_read_after pb 4 2 8 [b4, b5] (by omega) (by simp [h]) (by simp)
  have e3 := avio_read_after pb 6 2 8 [b6] (by omega) (by simp [h]) (by simp)
  simp only [List.length_cons, List.length_nil, Nat.zero_add, Nat.reduceAdd, Nat.cast_ofNat,
    Nat.cast_one] at e1 e2 e3
  have hv : isvr_valid (fill stk.vr [b4, b5]) = 1 := by
    rw [isvr_valid_iff]
    simpa [fill] using hvalid
  have hvl : u16 (fill stk.vl16 [b6]) = b6.val + 256 * (stk.vl16 1).val := by
    simp [u16, fill]
  simp [read_explicit, e1, e2, e3, wire_tag_eq, tag_is_lower, ht, hv, u16_fill2, hshort, hvl]

theorem read_explicit_undef_short_form (stk : Stack) (pb : AVIOContext) (de : data_element)
    (b0 b1 b2 b3 b4 b5 b6 b7 : Byte)
    (h : pb.next 8 = [b0, b1, b2, b3, b4, b5, b6, b7])
    (ht : de.tag < wire_tag b0 b1 b2 b3)
    (hg : get_group (wire_tag b0 b1 b2 b3) ≠ 0xfffe)
    (hvalid : ('A'.toNat ≤ b4.val ∧ b4.val ≤ 'Z'.toNat) ∧
      ('A'.toNat ≤ b5.val ∧ b5.val ≤ 'Z'.toNat))
    (hshort : isvr32 (b4.val + 256 * b5.val) = 0) :
    read_explicit_undef stk pb de =
      .ret (0, { tag := wire_tag b0 b1 b2 b3, vr := b4.val + 256 * b5.val,
                 vl := b6.val + 256 * b7.val }, { data := pb.data, pos := pb.pos + 8 }) := by
  have e1 := avio_read_first pb 4 8 [b0, b1, b2, b3] (by omega) (by simp [h]) (by simp)
  have e2 := avio_read_after pb 4 2 8 [b4, b5] (by omega) (by simp [h]) (by simp)
  have e3 := avio_read_after pb 6 2 8 [b6, b7] (by omega) (by simp [h]) (by simp)
  simp only [List.length_cons, List.length_nil, Nat.zero_add, Nat.reduceAdd, Nat.cast_ofNat]
    at e1 e2 e3
  have hv : isvr_valid (fill stk.vr [b4, b5]) = 1 := by
    rw [isvr_valid_iff]
    simpa [fill] using hvalid
  have hd : wire_tag b0 b1 b2 b3 ≠ MAKE_TAG 0xfffe 0xe00d := by
    intro heq
    rw [heq] at hg
    exact hg get_group_item_end
  simp [read_explicit_undef, e1, e2, e3, wire_tag_eq, tag_is_lower, ht, hv, u16_fill2, hshort,
    hd, hg]

theorem read_explicit_undef_item_end (stk : Stack) (pb : AVIOContext) (de : data_element)
    (h : pb.next 8 = [0xfe, 0xff, 0x0d, 0xe0, 0, 0, 0, 0])
    (ht : de.tag < MAKE_TAG 0xfffe 0xe00d) :
    read_explicit_undef stk pb de =
      .ret (0, { tag := MAKE_TAG 0xfffe 0xe00d, vr := E_INVALID, vl := 0 },
            { data := pb.data, pos := pb.pos + 8 }) := by
  have e1 := avio_read_first pb 4 8 [0xfe, 0xff, 0x0d, 0xe0] (by omega) (by simp [h]) (by simp)
  have e2 := avio_read_after pb 4 4 8 [0, 0, 0, 0] (by omega) (by simp [h]) (by simp)
  simp only [List.length_cons, List.length_nil, Nat.zero_add, Nat.reduceAdd, Nat.cast_ofNat]
    at e1 e2
  have hw : wire_tag 0xfe 0xff 0x0d 0xe0 = MAKE_TAG 0xfffe 0xe00d := by decide
  have hz : u32 (fill stk.vl [0, 0, 0, 0]) = 0 := by
    rw [u32_fill4]
    rfl
  simp [read_explicit_undef, e1, e2, wire_tag_eq, hw, tag_is_lower, ht, hz]

/-! ## The scanners after a header was read -/

theorem read_sq_undef_loop_abort (stk : Stack) (fuel : Nat) (pb pb' : AVIOContext)
    (de de' : data_element) (seqlen : Nat)
    (h : read_implicit stk pb { de with tag := 0 } = .ret (0, de', pb')) :
    read_sq_undef_loop stk (fuel + 1) pb de seqlen = .abort := by
  simp [read_sq_undef_loop, h, av_assert0]

theorem read_encapsulated_pixel_data_loop_abort (stk : Stack) (fuel : Nat)
    (pb pb' : AVIOContext) (de de' : data_element) (epdlen : Nat)
    (h : read_implicit stk pb { de with tag := 0 } = .ret (0, de', pb')) :
    read_encapsulated_pixel_data_loop stk (fuel + 1) pb de epdlen = .abort := by
  simp [read_encapsulated_pixel_data_loop, h, av_assert0]

theorem read_item_undef_loop_abort (stk : Stack) (fuel : Nat) (pb pb' : AVIOContext)
    (de de' : data_element) (itemlen : Nat)
    (h : read_explicit_undef stk pb de = .ret (0, de', pb')) :
    read_item_undef_loop stk (fuel + 1) pb de itemlen = .abort := by
  simp [read_item_undef_loop, h, av_assert0]

/-! ## The scanners on any source

The assertion `av_assert0( b )` fails when the reader returned 0, and when the reader
failed the element it left untouched has tag 0, which is neither a delimiter nor
Item-start. -/

theorem is_end_sq_tag_zero (de : data_element) (h : de.tag = 0) : is_end_sq de = .ret false := by
  simp [is_end_sq, h, tag_sq_end]

theorem is_start_tag_zero (de : data_element) (h : de.tag = 0) : is_start de = false := by
  simp [is_start, h, tag_item_start]

theorem read_sq_undef_loop_aborts (stk : Stack) (fuel : Nat) (pb : AVIOContext)
    (de : data_element) (seqlen : Nat) :
    read_sq_undef_loop stk (fuel + 1) pb de seqlen = .abort := by
  have hs := read_implicit_shape stk pb { de with tag := 0 }
  cases hr : read_implicit stk pb { de with tag := 0 } with
  | abort => simp [read_sq_undef_loop, hr]
  | nofuel => rw [hr] at hs; exact absurd hs (by simp [reader_shape])
  | ret r =>
    obtain ⟨c, de', pb'⟩ := r
    rw [hr] at hs
    simp only [reader_shape] at hs
    rcases hs with ⟨hc, hde⟩ | ⟨hc, _⟩
    · subst hde
      have hne : c ≠ 0 := by omega
      simp [read_sq_undef_loop, hr, av_assert0, hne, is_end_sq_tag_zero, is_start_tag_zero]
    · subst hc
      simp [read_sq_undef_loop, hr, av_assert0]

theorem read_encapsulated_pixel_data_loop_aborts (stk : Stack) (fuel : Nat) (pb : AVIOContext)
    (de : data_element) (epdlen : Nat) :
    read_encapsulated_pixel_data_loop stk (fuel + 1) pb de epdlen = .abort := by
  have hs := read_implicit_shape stk pb { de with tag := 0 }
  cases hr : read_implicit stk pb { de with tag := 0 } with
  | abort => simp [read_encapsulated_pixel_data_loop, hr]
  | nofuel => rw [hr] at hs; exact absurd hs (by simp [reader_shape])
  | ret r =>
    obtain ⟨c, de', pb'⟩ := r
    rw [hr] at hs
    simp only [reader_shape] at hs
    rcases hs with ⟨hc, hde⟩ | ⟨hc, _⟩
    · subst hde
      have hne : c ≠ 0 := by omega
      simp [read_encapsulated_pixel_data_loop, hr, av_assert0, hne, is_end_sq_tag_zero,
        is_start_tag_zero]
    · subst hc
      simp [read_encapsulated_pixel_data_loop, hr, av_assert0]

theorem read_item_undef_loop_never_returns (stk : Stack) (fuel : Nat) (pb : AVIOContext)
    (itemlen : Nat) :
    read_item_undef_loop stk fuel pb de_zero itemlen = .abort ∨
    read_item_undef_loop stk fuel pb de_zero itemlen = .nofuel := by
  induction fuel generalizing pb itemlen with
  | zero => right; simp [read_item_undef_loop]
  | succ n ih =>
    have hs := read_explicit_undef_shape stk pb de_zero
    cases hr : read_explicit_undef stk pb de_zero with
    | abort => left; simp [read_item_undef_loop, hr]
    | nofuel => rw [hr] at hs; exact absurd hs (by simp [reader_shape])
    | ret r =>
      obtain ⟨c, de', pb'⟩ := r
      rw [hr] at hs
      simp only [reader_shape] at hs
      rcases hs with ⟨hc, hde⟩ | ⟨hc, _⟩
      · subst hde
        have hne : c ≠ 0 := by omega
        have h1 : is_end_item de_zero = .ret false := by decide
        have h2 : is_undef_len de_zero = .ret false := by decide
        have h3 : compute_len de_zero = .ret 12 := by decide
        have := ih pb' ((itemlen + 12) % 4294967296)
        simpa [read_item_undef_loop, hr, av_assert0, hne, h1, h2, h3] using this
      · subst hc
        left
        simp [read_item_undef_loop, hr, av_assert0]

/-! ## One turn of the loop of `read_dataset` -/

theorem get_group_below_pixel_data (t : Nat) (h : t < MAKE_TAG 0x7fe0 0x0010) :
    get_group t ≤ 0x7fe0 ∧ get_group t ≠ 0xfffe := by
  rw [tag_pixel_data] at h
  have hd : t >>> 16 = t / 65536 := by
    rw [Nat.shiftRight_eq_div_pow]
  have hq : t / 65536 ≤ 0x7fe0 := by omega
  unfold get_group
  rw [hd]
  omega

theorem read_dataset_loop_abort (stk : Stack) (fuel : Nat) (pb : AVIOContext)
    (de : data_element) (h : read_explicit stk pb de = .abort) :
    read_dataset_loop stk (fuel + 1) pb de = .abort := by
  rw [read_dataset_loop, h]
  rfl

theorem read_dataset_loop_error (stk : Stack) (fuel : Nat) (pb pb' : AVIOContext)
    (de de' : data_element) (c : Int) (hc : c ≠ 0)
    (h : read_explicit stk pb de = .ret (c, de', pb')) :
    read_dataset_loop stk (fuel + 1) pb de = .ret (0, pb') := by
  rw [read_dataset_loop, h]
  simp [hc]

theorem read_dataset_loop_stop (stk : Stack) (fuel : Nat) (pb pb' : AVIOContext)
    (de de' : data_element) (hstop : MAKE_TAG 0x7fe0 0x0010 ≤ de'.tag)
    (h : read_explicit stk pb de = .ret (0, de', pb')) :
    read_dataset_loop stk (fuel + 1) pb de = .ret (0, pb') := by
  have hn : ¬ de'.tag < MAKE_TAG 0x7fe0 0x0010 := by omega
  rw [read_dataset_loop, h]
  simp [tag_is_lower, hn]

theorem read_dataset_loop_skip (stk : Stack) (fuel : Nat) (pb pb' : AVIOContext)
    (de de' : data_element) (hlow : de'.tag < MAKE_TAG 0x7fe0 0x0010)
    (hdef : de'.vl ≠ 0xFFFFFFFF)
    (h : read_explicit stk pb de = .ret (0, de', pb')) :
    read_dataset_loop stk (fuel + 1) pb de =
      read_dataset_loop stk fuel (avio_skip pb' de'.vl) de' := by
  have hg := get_group_below_pixel_data de'.tag hlow
  rw [read_dataset_loop, h]
  by_cases hsq : de'.vr = E_SQ
  · simp [tag_is_lower, hlow, av_assert0, hg.1, hg.2, is_undef_len, hdef, hsq]
  · simp [tag_is_lower, hlow, av_assert0, hg.1, hg.2, is_undef_len, hdef, hsq]

theorem read_dataset_scenario5_aborts (stk : Stack) (fuel : Nat) :
    read_dataset stk (fuel + 2) { data := scenario5_source, pos := 0 } = .abort := by
  have h1 : read_explicit stk { data := scenario5_source, pos := 0 } de_zero =
      .ret (0, { tag := MAKE_TAG 0x0010 0x0010, vr := E_PN, vl := 0 },
            { data := scenario5_source, pos := 8 }) :=
    (read_explicit_short_form stk { data := scenario5_source, pos := 0 } de_zero
      0x10 0x00 0x10 0x00 0x50 0x4e 0x00 0x00 (by decide) (by decide) (by decide)
      (by decide)).trans (by decide)
  have h2 := (readers_abort_tag_not_above stk { data := scenario5_source, pos := 8 }
      { tag := MAKE_TAG 0x0010 0x0010, vr := E_PN, vl := 0 } 0x10 0x00 0x05 0x00
      (by decide) (by decide)).1
  have hstep := read_dataset_loop_skip stk (fuel + 1) _ _ _ _ (by decide) (by decide) h1
  exact hstep.trans (read_dataset_loop_abort stk fuel _ _ h2)

/-! ## The claims -/

/-- C1, a defect of the code. On the sequence body of Scenario 3 (one Item of length
10, then Sequence-Delimitation) `read_sq_undef` does not return 26: `read_implicit`
decodes the Item-start header and returns 0, and the `av_assert0( b )` that follows
requires a non-zero return value, so the call aborts, with any stack contents and any
number of loop iterations allowed. -/
theorem read_sq_undef_scenario3_aborts (stk : Stack) (fuel : Nat) :
    read_implicit stk { data := scenario3_source, pos := 0 }
        { tag := 0, vr := stk.de_vr.val, vl := stk.de_vl.val } =
      .ret (0, { tag := MAKE_TAG 0xfffe 0xe000, vr := E_INVALID, vl := 10 },
            { data := scenario3_source, pos := 8 }) ∧
    read_sq_undef stk (fuel + 1) { data := scenario3_source, pos := 0 } = .abort := by
  have h := read_implicit_full stk { data := scenario3_source, pos := 0 }
    { tag := 0, vr := stk.de_vr.val, vl := stk.de_vl.val } 0xfe 0xff 0x00 0xe0 10 0 0 0
    (by decide) (show (0 : Nat) < wire_tag 0xfe 0xff 0x00 0xe0 by decide)
  exact ⟨h.trans (by decide), read_sq_undef_loop_abort stk fuel _ _ _ _ 0 h⟩

/-- C2, a defect of the code. On the body of an undefined-length item (the element of
Scenario 1 with its four value bytes, then Item-Delimitation) `read_item_undef` does not
return 20: `read_explicit_undef` decodes the first header and returns 0, and the
`av_assert0( b )` that follows requires a non-zero return value, so the call aborts. -/
theorem read_item_undef_one_element_aborts (stk : Stack) (fuel : Nat) :
    read_explicit_undef stk { data := item_body_source, pos := 0 } de_zero =
      .ret (0, { tag := MAKE_TAG 0x0008 0x0000, vr := E_UL, vl := 4 },
            { data := item_body_source, pos := 8 }) ∧
    read_item_undef stk (fuel + 1) { data := item_body_source, pos := 0 } = .abort := by
  have h := read_explicit_undef_short_form stk { data := item_body_source, pos := 0 } de_zero
    0x08 0x00 0x00 0x00 0x55 0x4c 0x04 0x00 (by decide) (by decide) (by decide) (by decide)
    (by decide)
  exact ⟨h.trans (by decide), read_item_undef_loop_abort stk fuel _ _ _ _ 0 h⟩

/-- C3, a defect of the code. On the fragment stream of Scenario 2 (an empty Basic
Offset Table item, one fragment of 4 bytes, Sequence-Delimitation)
`read_encapsulated_pixel_data` does not return 28: `read_implicit` decodes the first
Item-start header and returns 0, and the `av_assert0( b )` that follows requires a
non-zero return value, so the call aborts. -/
theorem read_encapsulated_pixel_data_scenario2_aborts (stk : Stack) (fuel : Nat) :
    read_implicit stk { data := scenario2_fragments, pos := 0 }
        { tag := 0, vr := stk.de_vr.val, vl := stk.de_vl.val } =
      .ret (0, { tag := MAKE_TAG 0xfffe 0xe000, vr := E_INVALID, vl := 0 },
            { data := scenario2_fragments, pos := 8 }) ∧
    read_encapsulated_pixel_data stk (fuel + 1) { data := scenario2_fragments, pos := 0 } =
      .abort := by
  have h := read_implicit_full stk { data := scenario2_fragments, pos := 0 }
    { tag := 0, vr := stk.de_vr.val, vl := stk.de_vl.val } 0xfe 0xff 0x00 0xe0 0 0 0 0
    (by decide) (show (0 : Nat) < wire_tag 0xfe 0xff 0x00 0xe0 by decide)
  exact ⟨h.trans (by decide), read_encapsulated_pixel_data_loop_abort stk fuel _ _ _ _ 0 h⟩

/-- C4, the claim as stated fails. For the encapsulated Pixel Data element of
Scenario 2 and the inner fragment total 28, `compute_undef_len` returns 40, which is
not `8 + 28 = 36`. -/
theorem compute_undef_len_scenario2_is_not_36 :
    compute_undef_len { tag := MAKE_TAG 0x7fe0 0x0010, vr := E_OB, vl := 0xFFFFFFFF } 28 =
      .ret 40 ∧
    compute_undef_len { tag := MAKE_TAG 0x7fe0 0x0010, vr := E_OB, vl := 0xFFFFFFFF } 28 ≠
      .ret ((8 + 28) % 4294967296) := by
  decide

/-- C4, amended. For every undefined-length element `de` (`vl = 0xFFFFFFFF`, with VR
SQ, or the Pixel Data tag with VR OB or OW, or the Item-start tag) and every inner
length `len` other than `0xFFFFFFFF`, `compute_undef_len(de, len)` equals `12 + len`
modulo `2^32`: 4 bytes of tag, 4 of VR and padding, 4 of length. -/
theorem compute_undef_len_is_12_plus_len (de : data_element) (len : Nat)
    (h : de.vl = 0xFFFFFFFF)
    (hl : de.vr = E_SQ ∨ (de.tag = MAKE_TAG 0x7fe0 0x0010 ∧ (de.vr = E_OB ∨ de.vr = E_OW)) ∨
      de.tag = MAKE_TAG 0xfffe 0xe000)
    (hlen : len ≠ 0xFFFFFFFF) :
    compute_undef_len de len = .ret ((12 + len) % 4294967296) :=
  compute_undef_len_eq de len h hl hlen

/-- C4, the amended claim at Scenario 2: the Pixel Data element with VR OB and the inner
fragment total 28 give 40, the 12 header bytes included. -/
theorem compute_undef_len_is_12_plus_len_witness :
    ((2145386512 = MAKE_TAG 0x7fe0 0x0010 ∧ (E_OB = E_OB ∨ E_OB = E_OW)) ∧
      (28 : Nat) ≠ 0xFFFFFFFF) ∧
    compute_undef_len { tag := 2145386512, vr := E_OB, vl := 0xFFFFFFFF } 28 = .ret 40 :=
  ⟨⟨⟨by decide, Or.inl rfl⟩, by decide⟩,
    compute_undef_len_is_12_plus_len { tag := 2145386512, vr := E_OB, vl := 0xFFFFFFFF } 28 rfl
      (Or.inr (Or.inl ⟨by decide, Or.inl rfl⟩)) (by decide)⟩

/-- C5. For every element `de` whose length is not `0xFFFFFFFF`, `compute_len(de)`
returns `8 + vl` when `isvr32` classifies the VR as short-form (returns 0) and `12 + vl`
when it classifies it as long-form, both modulo `2^32`. The function takes the element
only: it has no source to read from or to advance. -/
theorem compute_len_is_header_plus_vl (de : data_element) (h : de.vl ≠ 0xFFFFFFFF) :
    (isvr32 de.vr = 0 → compute_len de = .ret ((8 + de.vl) % 4294967296)) ∧
    (isvr32 de.vr ≠ 0 → compute_len de = .ret ((12 + de.vl) % 4294967296)) := by
  have hc := compute_len_eq de h
  constructor
  · intro h0
    rw [hc, if_pos h0]
  · intro h1
    rw [hc, if_neg h1]

/-- C5 at two elements: VR `UL` with length 4 gives 12, VR `OB` with length
`0xFFFFFFFE` wraps around to 10. -/
theorem compute_len_is_header_plus_vl_witness :
    compute_len { tag := MAKE_TAG 0x0008 0x0000, vr := E_UL, vl := 4 } = .ret 12 ∧
    compute_len { tag := MAKE_TAG 0x7fe0 0x0010, vr := E_OB, vl := 0xFFFFFFFE } = .ret 10 :=
  ⟨(compute_len_is_header_plus_vl { tag := MAKE_TAG 0x0008 0x0000, vr := E_UL, vl := 4 }
      (by decide)).1 (by decide),
   (compute_len_is_header_plus_vl { tag := MAKE_TAG 0x7fe0 0x0010, vr := E_OB, vl := 0xFFFFFFFE }
      (by decide)).2 (by decide)⟩

/-- C6. Whatever the source and the lower-bound tag `de.tag`: each of `read_explicit`,
`read_explicit_undef` and `read_implicit` that returns 0 hands back an element whose tag
is above the lower bound; and when the four tag bytes on the wire decode to a tag that
is less than or equal to the lower bound, each of the three aborts on its
`av_assert0( tag_is_lower( de, t.tag ) )`. -/
theorem readers_enforce_tag_order (stk : Stack) (pb : AVIOContext) (de : data_element) :
    (∀ de' pb', read_explicit stk pb de = .ret (0, de', pb') → de.tag < de'.tag) ∧
    (∀ de' pb', read_explicit_undef stk pb de = .ret (0, de', pb') → de.tag < de'.tag) ∧
    (∀ de' pb', read_implicit stk pb de = .ret (0, de', pb') → de.tag < de'.tag) ∧
    (∀ b0 b1 b2 b3, pb.next 4 = [b0, b1, b2, b3] → wire_tag b0 b1 b2 b3 ≤ de.tag →
      read_explicit stk pb de = .abort ∧ read_explicit_undef stk pb de = .abort ∧
      read_implicit stk pb de = .abort) := by
  refine ⟨?_, ?_, ?_, ?_⟩
  · intro de' pb' h
    have hs := read_explicit_shape stk pb de
    rw [h] at hs
    simpa [reader_shape] using hs
  · intro de' pb' h
    have hs := read_explicit_undef_shape stk pb de
    rw [h] at hs
    simpa [reader_shape] using hs
  · intro de' pb' h
    have hs := read_implicit_shape stk pb de
    rw [h] at hs
    simpa [reader_shape] using hs
  · intro b0 b1 b2 b3 h ht
    exact readers_abort_tag_not_above stk pb de b0 b1 b2 b3 h ht

/-- C6 at Scenario 5: the element (0010,0010) decodes, with lower bound 0; the next
four bytes decode to (0010,0005), which is not above (0010,0010), and the three readers
abort there; so does `read_dataset` on its second turn. -/
theorem readers_enforce_tag_order_witness :
    (∀ stk : Stack, read_explicit stk { data := scenario5_source, pos := 0 } de_zero =
      .ret (0, { tag := MAKE_TAG 0x0010 0x0010, vr := E_PN, vl := 0 },
            { data := scenario5_source, pos := 8 })) ∧
    wire_tag 0x10 0x00 0x05 0x00 ≤ MAKE_TAG 0x0010 0x0010 ∧
    (∀ stk : Stack,
      read_explicit stk { data := scenario5_source, pos := 8 }
          { tag := MAKE_TAG 0x0010 0x0010, vr := E_PN, vl := 0 } = .abort ∧
      read_explicit_undef stk { data := scenario5_source, pos := 8 }
          { tag := MAKE_TAG 0x0010 0x0010, vr := E_PN, vl := 0 } = .abort ∧
      read_implicit stk { data := scenario5_source, pos := 8 }
          { tag := MAKE_TAG 0x0010 0x0010, vr := E_PN, vl := 0 } = .abort) ∧
    (∀ (stk : Stack) (fuel : Nat),
      read_dataset stk (fuel + 2) { data := scenario5_source, pos := 0 } = .abort) :=
  ⟨fun stk => (read_explicit_short_form stk { data := scenario5_source, pos := 0 } de_zero
      0x10 0x00 0x10 0x00 0x50 0x4e 0x00 0x00 (by decide) (by decide) (by decide)
      (by decide)).trans (by decide),
   by decide,
   fun stk => (readers_enforce_tag_order stk { data := scenario5_source, pos := 8 }
      { tag := MAKE_TAG 0x0010 0x0010, vr := E_PN, vl := 0 }).2.2.2 0x10 0x00 0x05 0x00
      (by decide) (by decide),
   read_dataset_scenario5_aborts⟩

/-- C7, a defect of the code. On Scenario 1 cut after its seventh byte, `read_explicit`
returns 0 although only 7 header bytes exist: the last `avio_read` stores one byte,
returns 1, and only a result `<= 0` is taken as a failure. The cursor ends 7 bytes
on, not 8, and the length is byte 6 plus 256 times whatever the second byte of the
uninitialised `vl16` held. -/
theorem read_explicit_accepts_truncated_header (stk : Stack) :
    read_explicit stk { data := scenario1_truncated, pos := 0 } de_zero =
      .ret (0, { tag := MAKE_TAG 0x0008 0x0000, vr := E_UL, vl := 4 + 256 * (stk.vl16 1).val },
            { data := scenario1_truncated, pos := 7 }) :=
  read_explicit_short_read stk { data := scenario1_truncated, pos := 0 } de_zero
    0x08 0x00 0x00 0x00 0x55 0x4c 0x04 (by decide) (by decide) (by decide) (by decide)

/-- C8. `isvr32` returns 0 exactly for the 21 codes of the short-form catalog (AE, AS,
AT, CS, DA, DS, DT, FD, FL, IS, LO, LT, PN, SH, SL, SS, ST, TM, UI, UL, US, each as the
16-bit code its two letters have on the wire) and 1 for every other code, among them
OB, OD, OF, OW, SQ, UN, UT, the code 0 of `E_INVALID` and a code no VR has. -/
theorem isvr32_classification (vr : Nat) :
    short_form_catalog.length = 21 ∧
    (isvr32 vr = 0 ↔ vr ∈ short_form_catalog.map vr_code) ∧
    (vr ∉ short_form_catalog.map vr_code → isvr32 vr = 1) ∧
    (isvr32 E_OB = 1 ∧ isvr32 E_OD = 1 ∧ isvr32 E_OF = 1 ∧ isvr32 E_OW = 1 ∧
      isvr32 E_SQ = 1 ∧ isvr32 E_UN = 1 ∧ isvr32 E_UT = 1 ∧ isvr32 E_INVALID = 1 ∧
      isvr32 (MAKE_VR 'Z' 'Z') = 1 ∧ isvr32 0xFFFF = 1) := by
  have hc := isvr32_catalog vr
  refine ⟨rfl, ⟨fun h0 => ?_, hc.1⟩, hc.2, by decide⟩
  by_contra hn
  have h1 := hc.2 hn
  omega

/-- C9. `isvr_valid` returns 1 exactly when both bytes lie in `'A'..'Z'` and 0
otherwise. For every source whose four tag bytes decode to a tag above the lower bound
and whose VR field (the bytes at offsets 4 and 5, as far as the source has them) holds
a byte outside `'A'..'Z'`: `read_explicit` aborts on its `av_assert0( 0 )`, and
`read_explicit_undef`, for a tag other than Item-Delimitation, aborts when the tag's
group is FFFE and otherwise returns `AVERROR_INVALIDDATA` with the caller's element
unchanged. Neither produces an element. -/
theorem invalid_vr_produces_no_element :
    (∀ uvr : Nat → Byte, isvr_valid uvr = 1 ↔
      ('A'.toNat ≤ (uvr 0).val ∧ (uvr 0).val ≤ 'Z'.toNat) ∧
      ('A'.toNat ≤ (uvr 1).val ∧ (uvr 1).val ≤ 'Z'.toNat)) ∧
    (∀ uvr : Nat → Byte, isvr_valid uvr = 0 ∨ isvr_valid uvr = 1) ∧
    (∀ (stk : Stack) (pb : AVIOContext) (de : data_element) (b0 b1 b2 b3 : Byte)
        (v : List Byte),
      pb.next 6 = b0 :: b1 :: b2 :: b3 :: v →
      de.tag < wire_tag b0 b1 b2 b3 →
      (∃ x ∈ v, x.val < 'A'.toNat ∨ 'Z'.toNat < x.val) →
      read_explicit stk pb de = .abort ∧
      (wire_tag b0 b1 b2 b3 ≠ MAKE_TAG 0xfffe 0xe00d →
        read_explicit_undef stk pb de =
          if get_group (wire_tag b0 b1 b2 b3) = 0xfffe then .abort
          else .ret (AVERROR_INVALIDDATA, de,
            { data := pb.data, pos := pb.pos + (4 + v.length) }))) :=
  ⟨isvr_valid_iff, isvr_valid_zero_or_one, invalid_vr_rejected⟩

/-- C9 at Scenario 4: the VR bytes `Q_` after the tag (0010,0010), lower bound 0.
`read_explicit` aborts, `read_explicit_undef` returns `AVERROR_INVALIDDATA` after 6
bytes and leaves the caller's element as it was. -/
theorem invalid_vr_produces_no_element_witness :
    (de_zero.tag < wire_tag 0x10 0x00 0x10 0x00 ∧
      (∃ x ∈ ([0x51, 0x5f] : List Byte), x.val < 'A'.toNat ∨ 'Z'.toNat < x.val)) ∧
    (∀ stk : Stack,
      read_explicit stk { data := scenario4_source, pos := 0 } de_zero = .abort ∧
      read_explicit_undef stk { data := scenario4_source, pos := 0 } de_zero =
        .ret (AVERROR_INVALIDDATA, de_zero, { data := scenario4_source, pos := 6 })) :=
  ⟨⟨by decide, by decide⟩, fun stk =>
    have h := invalid_vr_produces_no_element.2.2 stk { data := scenario4_source, pos := 0 }
      de_zero 0x10 0x00 0x10 0x00 [0x51, 0x5f] (by decide) (by decide) (by decide)
    ⟨h.1, (h.2 (by decide)).trans (by decide)⟩⟩

/-- C10, the claim as stated fails for `read_explicit_undef`. The source holds the tag
(FFFE,E000), above the lower bound 0, then the valid long-form VR `OB` and the two
bytes `01 00`; `read_explicit_undef` aborts on `av_assert0( get_group(t.tag) != 0xfffe )`
before it reads the VR, so no invalid-data error is returned. -/
theorem read_explicit_undef_aborts_before_padding :
    (de_zero.tag < wire_tag 0xfe 0xff 0x00 0xe0 ∧
      isvr_valid (fill (fun _ => 0) [0x4f, 0x42]) = 1 ∧
      (0x4f + 256 * 0x42 ∉ short_form_catalog.map vr_code)) ∧
    (∀ stk : Stack,
      read_explicit_undef stk { data := padded_item_start_source, pos := 0 } de_zero =
        .abort) := by
  refine ⟨⟨by decide, by decide, by decide⟩, fun stk => ?_⟩
  have e1 := avio_read_first { data := padded_item_start_source, pos := 0 } 4 4
    [0xfe, 0xff, 0x00, 0xe0] (by omega) (by decide) (by simp)
  simp only [List.length_cons, List.length_nil, Nat.zero_add, Nat.reduceAdd, Nat.cast_ofNat]
    at e1
  have hw : wire_tag 0xfe 0xff 0x00 0xe0 = MAKE_TAG 0xfffe 0xe000 := by decide
  have hlt : de_zero.tag < MAKE_TAG 0xfffe 0xe000 := by decide
  have hd : MAKE_TAG 0xfffe 0xe000 ≠ MAKE_TAG 0xfffe 0xe00d := by decide
  have hg : get_group (MAKE_TAG 0xfffe 0xe000) = 0xfffe := by decide
  simp [read_explicit_undef, e1, wire_tag_eq, hw, tag_is_lower, hlt, hd, hg]

/-- C10, amended. For every source whose tag is above the lower bound, whose VR is valid
and not in the short-form catalog and whose two bytes after the VR are not both zero:
`read_explicit` returns `AVERROR_INVALIDDATA` with the cursor 8 bytes on (tag, VR and
the two bytes; the 32-bit length is not read) and the caller's element unchanged, and
so does `read_explicit_undef` when the tag's group is not FFFE. -/
theorem nonzero_padding_is_invalid_data (stk : Stack) (pb : AVIOContext) (de : data_element)
    (b0 b1 b2 b3 b4 b5 b6 b7 : Byte)
    (h : pb.next 8 = [b0, b1, b2, b3, b4, b5, b6, b7])
    (ht : de.tag < wire_tag b0 b1 b2 b3)
    (hvalid : ('A'.toNat ≤ b4.val ∧ b4.val ≤ 'Z'.toNat) ∧
      ('A'.toNat ≤ b5.val ∧ b5.val ≤ 'Z'.toNat))
    (hlong : b4.val + 256 * b5.val ∉ short_form_catalog.map vr_code)
    (hpad : ¬ (b6 = 0 ∧ b7 = 0)) :
    read_explicit stk pb de =
        .ret (AVERROR_INVALIDDATA, de, { data := pb.data, pos := pb.pos + 8 }) ∧
    (get_group (wire_tag b0 b1 b2 b3) ≠ 0xfffe →
      read_explicit_undef stk pb de =
        .ret (AVERROR_INVALIDDATA, de, { data := pb.data, pos := pb.pos + 8 })) :=
  nonzero_padding_invalid stk pb de b0 b1 b2 b3 b4 b5 b6 b7 h ht hvalid hlong hpad

/-- C10, the amended claim at a Pixel Data header (7FE0,0010) with VR `OB` and the
bytes `01 00` where the padding belongs: both readers return `AVERROR_INVALIDDATA`
with the cursor at 8 and the caller's element unchanged. -/
theorem nonzero_padding_is_invalid_data_witness :
    (de_zero.tag < wire_tag 0xe0 0x7f 0x10 0x00 ∧
      get_group (wire_tag 0xe0 0x7f 0x10 0x00) ≠ 0xfffe ∧
      ¬ ((0x01 : Byte) = 0 ∧ (0x00 : Byte) = 0)) ∧
    (∀ stk : Stack,
      read_explicit stk { data := bad_padding_source, pos := 0 } de_zero =
        .ret (AVERROR_INVALIDDATA, de_zero, { data := bad_padding_source, pos := 8 }) ∧
      read_explicit_undef stk { data := bad_padding_source, pos := 0 } de_zero =
        .ret (AVERROR_INVALIDDATA, de_zero, { data := bad_padding_source, pos := 8 })) :=
  ⟨⟨by decide, by decide, by decide⟩, fun stk =>
    have h := nonzero_padding_is_invalid_data stk { data := bad_padding_source, pos := 0 }
      de_zero 0xe0 0x7f 0x10 0x00 0x4f 0x42 0x01 0x00 (by decide) (by decide) (by decide)
      (by decide) (by decide)
    ⟨h.1, h.2 (by decide)⟩⟩

/-! ## Further properties of `read_explicit` -/

theorem wire_tag_lt (b0 b1 b2 b3 : Byte) :
    (b0.val + 256 * b1.val) <<< 16 ||| (b2.val + 256 * b3.val) < 4294967296 := by
  have h0 := b0.isLt
  have h1 := b1.isLt
  have h2 := b2.isLt
  have h3 := b3.isLt
  have hg : (b0.val + 256 * b1.val) <<< 16 < 2 ^ 32 := by
    rw [Nat.shiftLeft_eq]
    omega
  have he : b2.val + 256 * b3.val < 2 ^ 32 := by omega
  exact Nat.or_lt_two_pow hg he

theorem wire_tag_unfold (b0 b1 b2 b3 : Byte) :
    wire_tag b0 b1 b2 b3 = (b0.val + 256 * b1.val) <<< 16 ||| (b2.val + 256 * b3.val) := by
  unfold wire_tag MAKE_TAG
  exact Nat.mod_eq_of_lt (wire_tag_lt b0 b1 b2 b3)

/-- A complete short-form header. When the source holds 8 more bytes, the tag they
start with is above the lower bound and the VR is valid and in the short-form catalog,
`read_explicit` returns 0 with the cursor exactly 8 bytes on; the tag is the
little-endian group shifted left by 16 or-ed with the little-endian element, the VR is
the code of bytes 4..5 and the length is the little-endian 16-bit value of bytes
6..7. -/
theorem read_explicit_complete_short_header (stk : Stack) (pb : AVIOContext)
    (de : data_element) (b0 b1 b2 b3 b4 b5 b6 b7 : Byte)
    (h : pb.next 8 = [b0, b1, b2, b3, b4, b5, b6, b7])
    (ht : de.tag < wire_tag b0 b1 b2 b3)
    (hvalid : ('A'.toNat ≤ b4.val ∧ b4.val ≤ 'Z'.toNat) ∧
      ('A'.toNat ≤ b5.val ∧ b5.val ≤ 'Z'.toNat))
    (hshort : b4.val + 256 * b5.val ∈ short_form_catalog.map vr_code) :
    read_explicit stk pb de =
      .ret (0, { tag := (b0.val + 256 * b1.val) <<< 16 ||| (b2.val + 256 * b3.val),
                 vr := b4.val + 256 * b5.val, vl := b6.val + 256 * b7.val },
            { data := pb.data, pos := pb.pos + 8 }) := by
  rw [← wire_tag_unfold]
  exact read_explicit_short_form stk pb de b0 b1 b2 b3 b4 b5 b6 b7 h ht hvalid
    ((isvr32_catalog _).1 hshort)

/-- Scenario 1: tag (0008,0000), VR `UL`, length 4, after 8 header bytes. -/
theorem read_explicit_complete_short_header_witness :
    (de_zero.tag < wire_tag 0x08 0x00 0x00 0x00 ∧
      (0x55 + 256 * 0x4c ∈ short_form_catalog.map vr_code)) ∧
    (∀ stk : Stack, read_explicit stk { data := scenario1_source, pos := 0 } de_zero =
      .ret (0, { tag := MAKE_TAG 0x0008 0x0000, vr := E_UL, vl := 4 },
            { data := scenario1_source, pos := 8 })) :=
  ⟨⟨by decide, by decide⟩, fun stk =>
    (read_explicit_complete_short_header stk { data := scenario1_source, pos := 0 } de_zero
      0x08 0x00 0x00 0x00 0x55 0x4c 0x04 0x00 (by decide) (by decide) (by decide)
      (by decide)).trans (by decide)⟩

/-- A complete long-form header. When the source holds 12 more bytes, the tag they
start with is above the lower bound, the VR is valid and not in the short-form catalog
and bytes 6..7 are zero, `read_explicit` returns 0 with the cursor exactly 12 bytes on;
the length is the little-endian 32-bit value of bytes 8..11, `0xFFFFFFFF` included. -/
theorem read_explicit_complete_long_header (stk : Stack) (pb : AVIOContext)
    (de : data_element) (b0 b1 b2 b3 b4 b5 b8 b9 b10 b11 : Byte)
    (h : pb.next 12 = [b0, b1, b2, b3, b4, b5, 0, 0, b8, b9, b10, b11])
    (ht : de.tag < wire_tag b0 b1 b2 b3)
    (hvalid : ('A'.toNat ≤ b4.val ∧ b4.val ≤ 'Z'.toNat) ∧
      ('A'.toNat ≤ b5.val ∧ b5.val ≤ 'Z'.toNat))
    (hlong : b4.val + 256 * b5.val ∉ short_form_catalog.map vr_code) :
    read_explicit stk pb de =
      .ret (0, { tag := (b0.val + 256 * b1.val) <<< 16 ||| (b2.val + 256 * b3.val),
                 vr := b4.val + 256 * b5.val,
                 vl := b8.val + 256 * b9.val + 65536 * b10.val + 16777216 * b11.val },
            { data := pb.data, pos := pb.pos + 12 }) := by
  rw [← wire_tag_unfold]
  refine read_explicit_long_form stk pb de b0 b1 b2 b3 b4 b5 b8 b9 b10 b11 h ht hvalid ?_
  rw [(isvr32_catalog _).2 hlong]
  decide

/-- The header of Scenario 2: Pixel Data, VR `OB`, undefined length, after 12 header
bytes. -/
theorem read_explicit_complete_long_header_witness :
    (de_zero.tag < wire_tag 0xe0 0x7f 0x10 0x00 ∧
      (0x4f + 256 * 0x42 ∉ short_form_catalog.map vr_code)) ∧
    (∀ stk : Stack, read_explicit stk { data := scenario2_source, pos := 0 } de_zero =
      .ret (0, { tag := MAKE_TAG 0x7fe0 0x0010, vr := E_OB, vl := 0xFFFFFFFF },
            { data := scenario2_source, pos := 12 })) :=
  ⟨⟨by decide, by decide⟩, fun stk =>
    (read_explicit_complete_long_header stk { data := scenario2_source, pos := 0 } de_zero
      0xe0 0x7f 0x10 0x00 0x4f 0x42 0xff 0xff 0xff 0xff (by decide) (by decide) (by decide)
      (by decide)).trans (by decide)⟩

/-! ## Further facts for the second group of claims -/

theorem MAKE_TAG_eq (g e : Nat) (he : e < 65536) :
    MAKE_TAG g e = (g * 65536 + e) % 4294967296 := by
  unfold MAKE_TAG
  rw [Nat.shiftLeft_eq]
  have h := Nat.mul_add_lt_is_or (i := 16) (b := e) (by simpa using he) g
  have h2 : g * 2 ^ 16 = 2 ^ 16 * g := Nat.mul_comm _ _
  rw [h2, ← h]
  norm_num
  omega

theorem MAKE_TAG_eq_of_lt (g e : Nat) (hg : g < 65536) (he : e < 65536) :
    MAKE_TAG g e = g * 65536 + e := by
  rw [MAKE_TAG_eq g e he]
  exact Nat.mod_eq_of_lt (by omega)

theorem get_group_eq (t : Nat) : get_group t = t / 65536 % 65536 := by
  unfold get_group
  rw [Nat.shiftRight_eq_div_pow]

theorem get_element_eq (t : Nat) : get_element t = t % 65536 := by
  unfold get_element
  have h := Nat.and_pow_two_sub_one_eq_mod t 16
  norm_num at h
  rw [h]
  exact Nat.mod_mod _ _


theorem packed_tag_facts :
    (∀ g e, g < 65536 → e < 65536 →
      get_group (MAKE_TAG g e) = g ∧ get_element (MAKE_TAG g e) = e) ∧
    (∀ g1 e1 g2 e2, g1 < 65536 → e1 < 65536 → g2 < 65536 → e2 < 65536 →
      (MAKE_TAG g1 e1 < MAKE_TAG g2 e2 ↔ g1 < g2 ∨ (g1 = g2 ∧ e1 < e2))) ∧
    (∀ g e, g < 65536 → e < 65536 → MAKE_TAG g e < 4294967296) ∧
    (∀ t, t < 4294967296 →
      get_group t < 65536 ∧ get_element t < 65536 ∧
      MAKE_TAG (get_group t) (get_element t) = t) := by
  refine ⟨?_, ?_, ?_, ?_⟩
  · intro g e hg he
    rw [MAKE_TAG_eq_of_lt g e hg he, get_group_eq, get_element_eq]
    omega
  · intro g1 e1 g2 e2 h1 h2 h3 h4
    rw [MAKE_TAG_eq_of_lt g1 e1 h1 h2, MAKE_TAG_eq_of_lt g2 e2 h3 h4]
    omega
  · intro g e hg he
    rw [MAKE_TAG_eq_of_lt g e hg he]
    omega
  · intro t ht
    have hg : get_group t < 65536 := by rw [get_group_eq]; omega
    have he : get_element t < 65536 := by rw [get_element_eq]; omega
    refine ⟨hg, he, ?_⟩
    rw [MAKE_TAG_eq_of_lt _ _ hg he, get_group_eq, get_element_eq]
    omega

theorem is_end_item_nonzero (de : data_element) (ht : de.tag = MAKE_TAG 0xfffe 0xe00d)
    (hvl : de.vl ≠ 0) : is_end_item de = .abort := by
  simp [is_end_item, ht, hvl, av_assert0]

theorem is_end_sq_nonzero (de : data_element) (ht : de.tag = MAKE_TAG 0xfffe 0xe0dd)
    (hvl : de.vl ≠ 0) : is_end_sq de = .abort := by
  simp [is_end_sq, ht, hvl, av_assert0]

theorem u32_fill_ne_zero (buf : Nat → Byte) (v : List Byte) (hlen : v.length ≤ 4)
    (hv : ∃ x ∈ v, x ≠ 0) : u32 (fill buf v) ≠ 0 := by
  obtain ⟨x, hx, hne⟩ := hv
  have hx0 : x.val ≠ 0 := fun h => hne (Fin.ext h)
  match v, hlen, hx with
  | [a], _, hx =>
    simp at hx
    subst hx
    simp [u32, fill]
    omega
  | [a, b], _, hx =>
    simp at hx
    simp [u32, fill]
    rcases hx with rfl | rfl <;> omega
  | [a, b, c], _, hx =>
    simp at hx
    simp [u32, fill]
    rcases hx with rfl | rfl | rfl <;> omega
  | [a, b, c, d], _, hx =>
    simp at hx
    simp [u32, fill]
    rcases hx with rfl | rfl | rfl | rfl <;> omega

theorem read_explicit_undef_item_end_nonzero (stk : Stack) (pb : AVIOContext)
    (de : data_element) (v : List Byte)
    (h : pb.next 8 = 0xfe :: 0xff :: 0x0d :: 0xe0 :: v)
    (ht : de.tag < MAKE_TAG 0xfffe 0xe00d)
    (hv : ∃ x ∈ v, x ≠ 0) :
    read_explicit_undef stk pb de =
      .ret (AVERROR_INVALIDDATA, de, { data := pb.data, pos := pb.pos + (4 + v.length) }) := by
  have hlen : v.length ≤ 4 := by
    have := next_length_le pb 8
    rw [h] at this
    simp at this
    omega
  have hne : v ≠ [] := by
    rintro rfl
    simp at hv
  have e1 := avio_read_first pb 4 8 [0xfe, 0xff, 0x0d, 0xe0] (by omega) (by simp [h]) (by simp)
  have e2 := avio_read_after pb 4 4 8 v (by omega) (by simp [h]; exact hlen) hne
  simp only [List.length_cons, List.length_nil, Nat.zero_add, Nat.reduceAdd, Nat.cast_ofNat]
    at e1
  have hw : wire_tag 0xfe 0xff 0x0d 0xe0 = MAKE_TAG 0xfffe 0xe00d := by decide
  have hz := u32_fill_ne_zero stk.vl v hlen hv
  have hpos : ¬ ((v.length : Int) ≤ 0) := by
    have : 0 < v.length := List.length_pos.mpr hne
    omega
  simp [read_explicit_undef, e1, e2, wire_tag_eq, hw, tag_is_lower, ht, hz, hpos]

theorem read_sq_undef_never_returns (stk : Stack) (fuel : Nat) (pb : AVIOContext)
    (r : Nat × AVIOContext) : read_sq_undef stk fuel pb ≠ .ret r := by
  cases fuel with
  | zero => simp [read_sq_undef, read_sq_undef_loop]
  | succ n => simp [read_sq_undef, read_sq_undef_loop_aborts]

theorem read_encapsulated_pixel_data_never_returns (stk : Stack) (fuel : Nat)
    (pb : AVIOContext) (r : Nat × AVIOContext) :
    read_encapsulated_pixel_data stk fuel pb ≠ .ret r := by
  cases fuel with
  | zero => simp [read_encapsulated_pixel_data, read_encapsulated_pixel_data_loop]
  | succ n => simp [read_encapsulated_pixel_data, read_encapsulated_pixel_data_loop_aborts]

theorem read_item_undef_never_returns (stk : Stack) (fuel : Nat) (pb : AVIOContext)
    (r : Nat × AVIOContext) : read_item_undef stk fuel pb ≠ .ret r := by
  have h := read_item_undef_loop_never_returns stk fuel pb 0
  unfold read_item_undef
  rw [show ({ tag := 0, vr := 0, vl := 0 } : data_element) = de_zero from rfl]
  rcases h with h | h <;> rw [h] <;> simp

theorem is_undef_len_true_iff (de : data_element) :
    is_undef_len de = .ret true ↔
      de.vl = 0xFFFFFFFF ∧
      (de.vr = E_SQ ∨ (de.tag = MAKE_TAG 0x7fe0 0x0010 ∧ (de.vr = E_OB ∨ de.vr = E_OW)) ∨
        de.tag = MAKE_TAG 0xfffe 0xe000) := by
  by_cases hvl : de.vl = 0xFFFFFFFF
  swap
  · simp [is_undef_len, hvl]
  by_cases hsq : de.vr = E_SQ
  · simp [is_undef_len, hvl, hsq]
  by_cases hp : de.tag = MAKE_TAG 0x7fe0 0x0010
  · by_cases hob : de.vr = E_OB ∨ de.vr = E_OW
    · simp [is_undef_len, hvl, hsq, hp, hob, is_encapsulated_pixel_data, tag_equal_to,
        av_assert0]
    · have hns : MAKE_TAG 0x7fe0 0x0010 ≠ MAKE_TAG 0xfffe 0xe000 := by decide
      simp [is_undef_len, hvl, hsq, hp, hob, is_encapsulated_pixel_data, tag_equal_to,
        av_assert0, hns]
  · by_cases hs : de.tag = MAKE_TAG 0xfffe 0xe000
    · have hns : MAKE_TAG 0xfffe 0xe000 ≠ MAKE_TAG 0x7fe0 0x0010 := by decide
      simp [is_undef_len, hvl, hsq, hs, is_encapsulated_pixel_data, tag_equal_to,
        av_assert0, is_start, hns]
    · simp [is_undef_len, hvl, hsq, hp, hs, is_encapsulated_pixel_data, tag_equal_to,
        av_assert0, is_start]

theorem is_undef_len_abort_below_pixel_data (de : data_element)
    (hlow : de.tag < MAKE_TAG 0x7fe0 0x0010) (hvl : de.vl = 0xFFFFFFFF) (hvr : de.vr ≠ E_SQ) :
    is_undef_len de = .abort := by
  have hp : de.tag ≠ MAKE_TAG 0x7fe0 0x0010 := by omega
  have hs : de.tag ≠ MAKE_TAG 0xfffe 0xe000 := by
    rw [tag_pixel_data] at hlow
    rw [tag_item_start]
    omega
  simp [is_undef_len, hvl, hvr, hp, hs, is_encapsulated_pixel_data, tag_equal_to, av_assert0,
    is_start]

theorem read_dataset_loop_undef_not_sq (stk : Stack) (fuel : Nat) (pb pb' : AVIOContext)
    (de de' : data_element) (hlow : de'.tag < MAKE_TAG 0x7fe0 0x0010)
    (hvl : de'.vl = 0xFFFFFFFF) (hvr : de'.vr ≠ E_SQ)
    (h : read_explicit stk pb de = .ret (0, de', pb')) :
    read_dataset_loop stk (fuel + 1) pb de = .abort := by
  have hg := get_group_below_pixel_data de'.tag hlow
  have hu := is_undef_len_abort_below_pixel_data de' hlow hvl hvr
  rw [read_dataset_loop, h]
  simp [tag_is_lower, hlow, av_assert0, hg.1, hg.2, hu]

/-! ## Short reads and the end of the source -/

theorem read_implicit_short_read (stk : Stack) (pb : AVIOContext) (de : data_element)
    (b0 b1 b2 b3 : Byte) (v : List Byte)
    (h : pb.next 8 = b0 :: b1 :: b2 :: b3 :: v) (hne : v ≠ [])
    (ht : de.tag < wire_tag b0 b1 b2 b3) :
    read_implicit stk pb de =
      .ret (0, { tag := wire_tag b0 b1 b2 b3, vr := E_INVALID, vl := u32 (fill stk.vl v) },
            { data := pb.data, pos := pb.pos + (4 + v.length) }) := by
  have hlen : v.length ≤ 4 := by
    have := next_length_le pb 8
    rw [h] at this
    simp at this
    omega
  have e1 := avio_read_first pb 4 8 [b0, b1, b2, b3] (by omega) (by simp [h]) (by simp)
  have e2 := avio_read_after pb 4 4 8 v (by omega) (by simp [h]; exact hlen) hne
  simp only [List.length_cons, List.length_nil, Nat.zero_add, Nat.reduceAdd, Nat.cast_ofNat]
    at e1
  have hpos : ¬ ((v.length : Int) ≤ 0) := by
    have : 0 < v.length := List.length_pos.mpr hne
    omega
  simp [read_implicit, e1, e2, wire_tag_eq, tag_is_lower, ht, hpos]

theorem avio_read_nothing (pb : AVIOContext) (n : Nat) (hn : n ≠ 0) (h : pb.next n = []) :
    avio_read pb n = { ret := AVERROR_EOF, got := [], pb := pb } := by
  have hgot : (pb.data.drop pb.pos).take n = [] := h
  simp [avio_read, hgot, hn]

theorem readers_fail_at_end (stk : Stack) (pb : AVIOContext) (de : data_element)
    (h : pb.next 4 = []) :
    read_explicit stk pb de = .ret (AVERROR EIO, de, pb) ∧
    read_explicit_undef stk pb de = .ret (AVERROR EIO, de, pb) ∧
    read_implicit stk pb de = .ret (AVERROR EIO, de, pb) := by
  have e1 := avio_read_nothing pb 4 (by decide) h
  have hneg : AVERROR_EOF ≤ 0 := by decide
  refine ⟨?_, ?_, ?_⟩
  · simp [read_explicit, e1, hneg]
  · simp [read_explicit_undef, e1, hneg]
  · simp [read_implicit, e1, hneg]

/-! ## `read_explicit_undef` against `read_explicit` -/

theorem read_explicit_undef_eq_read_explicit (stk : Stack) (pb : AVIOContext)
    (de : data_element)
    (hg : (avio_read pb 4).ret ≤ 0 ∨ get_group (tag_read stk pb) ≠ 0xfffe)
    (hna : read_explicit stk pb de ≠ .abort) :
    read_explicit_undef stk pb de = read_explicit stk pb de := by
  unfold tag_read at hg
  by_cases c1 : (avio_read pb 4).ret ≤ 0
  · simp [read_explicit, read_explicit_undef, c1]
  have hg' : get_group (SWAP_TAG (fill stk.t (avio_read pb 4).got)) ≠ 0xfffe := by
    rcases hg with h | h
    · exact absurd h c1
    · exact h
  have d0 : SWAP_TAG (fill stk.t (avio_read pb 4).got) ≠ MAKE_TAG 0xfffe 0xe00d := by
    intro heq
    rw [heq] at hg'
    exact hg' get_group_item_end
  by_cases c2 : tag_is_lower de (SWAP_TAG (fill stk.t (avio_read pb 4).got)) = true
  swap
  · exact absurd (by simp [read_explicit, c1, c2]) hna
  by_cases c3 : (avio_read (avio_read pb 4).pb 2).ret ≤ 0
  · simp [read_explicit, read_explicit_undef, c1, c2, d0, hg', c3]
  by_cases c4 : isvr_valid (fill stk.vr (avio_read (avio_read pb 4).pb 2).got) = 0
  · exact absurd (by simp [read_explicit, c1, c2, c3, c4]) hna
  by_cases c5 : (avio_read (avio_read (avio_read pb 4).pb 2).pb 2).ret ≤ 0
  · simp [read_explicit, read_explicit_undef, c1, c2, d0, hg', c3, c4, c5]
  by_cases c6 : isvr32 (u16 (fill stk.vr (avio_read (avio_read pb 4).pb 2).got)) = 0
  · simp [read_explicit, read_explicit_undef, c1, c2, d0, hg', c3, c4, c5, c6]
  by_cases c7 : u16 (fill stk.vl16 (avio_read (avio_read (avio_read pb 4).pb 2).pb 2).got) = 0
  swap
  · simp [read_explicit, read_explicit_undef, c1, c2, d0, hg', c3, c4, c5, c6, c7]
  by_cases c8 : (avio_read (avio_read (avio_read (avio_read pb 4).pb 2).pb 2).pb 4).ret ≤ 0
  · simp [read_explicit, read_explicit_undef, c1, c2, d0, hg', c3, c4, c5, c6, c7, c8]
  · simp [read_explicit, read_explicit_undef, c1, c2, d0, hg', c3, c4, c5, c6, c7, c8]

theorem read_explicit_undef_fails_when_read_explicit_aborts (stk : Stack) (pb : AVIOContext)
    (de : data_element)
    (hg : (avio_read pb 4).ret ≤ 0 ∨ get_group (tag_read stk pb) ≠ 0xfffe)
    (ha : read_explicit stk pb de = .abort) :
    read_explicit_undef stk pb de = .abort ∨
    ∃ pb', read_explicit_undef stk pb de = .ret (AVERROR_INVALIDDATA, de, pb') := by
  unfold tag_read at hg
  by_cases c1 : (avio_read pb 4).ret ≤ 0
  · simp [read_explicit, c1] at ha
  have hg' : get_group (SWAP_TAG (fill stk.t (avio_read pb 4).got)) ≠ 0xfffe := by
    rcases hg with h | h
    · exact absurd h c1
    · exact h
  have d0 : SWAP_TAG (fill stk.t (avio_read pb 4).got) ≠ MAKE_TAG 0xfffe 0xe00d := by
    intro heq
    rw [heq] at hg'
    exact hg' get_group_item_end
  by_cases c2 : tag_is_lower de (SWAP_TAG (fill stk.t (avio_read pb 4).got)) = true
  swap
  · left
    simp [read_explicit_undef, c1, c2]
  by_cases c3 : (avio_read (avio_read pb 4).pb 2).ret ≤ 0
  · simp [read_explicit, c1, c2, c3] at ha
  by_cases c4 : isvr_valid (fill stk.vr (avio_read (avio_read pb 4).pb 2).got) = 0
  · right
    exact ⟨_, by simp [read_explicit_undef, c1, c2, d0, hg', c3, c4]; rfl⟩
  exfalso
  by_cases c5 : (avio_read (avio_read (avio_read pb 4).pb 2).pb 2).ret ≤ 0
  · simp [read_explicit, c1, c2, c3, c4, c5] at ha
  by_cases c6 : isvr32 (u16 (fill stk.vr (avio_read (avio_read pb 4).pb 2).got)) = 0
  · simp [read_explicit, c1, c2, c3, c4, c5, c6] at ha
  by_cases c7 : u16 (fill stk.vl16 (avio_read (avio_read (avio_read pb 4).pb 2).pb 2).got) = 0
  swap
  · simp [read_explicit, c1, c2, c3, c4, c5, c6, c7] at ha
  by_cases c8 : (avio_read (avio_read (avio_read (avio_read pb 4).pb 2).pb 2).pb 4).ret ≤ 0
  · simp [read_explicit, c1, c2, c3, c4, c5, c6, c7, c8] at ha
  · simp [read_explicit, c1, c2, c3, c4, c5, c6, c7, c8] at ha


theorem tag_read_eq (stk : Stack) (pb : AVIOContext) (b0 b1 b2 b3 : Byte)
    (h : pb.next 4 = [b0, b1, b2, b3]) : tag_read stk pb = wire_tag b0 b1 b2 b3 := by
  have e1 := avio_read_first pb 4 4 [b0, b1, b2, b3] (by omega) (by simp [h]) (by simp)
  simp [tag_read, e1, wire_tag_eq]

theorem read_explicit_undef_group_fffe (stk : Stack) (pb : AVIOContext) (de : data_element)
    (b0 b1 b2 b3 : Byte) (h : pb.next 4 = [b0, b1, b2, b3])
    (ht : de.tag < wire_tag b0 b1 b2 b3)
    (hg : get_group (wire_tag b0 b1 b2 b3) = 0xfffe)
    (hd : wire_tag b0 b1 b2 b3 ≠ MAKE_TAG 0xfffe 0xe00d) :
    read_explicit_undef stk pb de = .abort := by
  have e1 := avio_read_first pb 4 4 [b0, b1, b2, b3] (by omega) (by simp [h]) (by simp)
  simp only [List.length_cons, List.length_nil, Nat.zero_add, Nat.reduceAdd, Nat.cast_ofNat]
    at e1
  simp [read_explicit_undef, e1, wire_tag_eq, tag_is_lower, ht, hd, hg]

/-! ## `read_item_undef` after a failed read -/

theorem read_item_undef_loop_after_error (stk : Stack) (fuel : Nat) (pb pb' : AVIOContext)
    (itemlen : Nat) (c : Int) (hc : c ≠ 0)
    (h : read_explicit_undef stk pb de_zero = .ret (c, de_zero, pb')) :
    read_item_undef_loop stk (fuel + 1) pb de_zero itemlen =
      read_item_undef_loop stk fuel pb' de_zero ((itemlen + 12) % 4294967296) := by
  have h1 : is_end_item de_zero = .ret false := by decide
  have h2 : is_undef_len de_zero = .ret false := by decide
  have h3 : compute_len de_zero = .ret 12 := by decide
  simp [read_item_undef_loop, h, av_assert0, hc, h1, h2, h3]

theorem read_item_undef_at_end (stk : Stack) (fuel : Nat) (pb : AVIOContext)
    (h : pb.next 4 = []) (itemlen : Nat) :
    read_item_undef_loop stk fuel pb de_zero itemlen = .nofuel := by
  induction fuel generalizing itemlen with
  | zero => simp [read_item_undef_loop]
  | succ n ih =>
    rw [read_item_undef_loop_after_error stk n pb pb itemlen (AVERROR EIO) (by decide)
      (readers_fail_at_end stk pb de_zero h).2.1]
    exact ih _

/-! ## `read_dataset` over a run of elements -/

theorem byte_of_val (n : Nat) : (byte_of n).val = n % 256 := rfl

theorem read_explicit_wire_header (stk : Stack) (pb : AVIOContext) (de : data_element)
    (h : wire_header) (tail : List Byte)
    (hdrop : pb.data.drop pb.pos = h.bytes ++ tail)
    (hv : h.valid) (ht : de.tag < h.tag) :
    read_explicit stk pb de =
      .ret (0, h.element, { data := pb.data, pos := pb.pos + h.bytes.length }) := by
  obtain ⟨hvalid, hvl⟩ := hv
  by_cases hs : h.vr ∈ short_form_catalog.map vr_code
  · have hb : h.bytes =
        [h.b0, h.b1, h.b2, h.b3, h.v0, h.v1, byte_of h.vl, byte_of (h.vl / 256)] := by
      simp [wire_header.bytes, hs]
    rw [if_pos hs] at hvl
    have hnext : pb.next 8 =
        [h.b0, h.b1, h.b2, h.b3, h.v0, h.v1, byte_of h.vl, byte_of (h.vl / 256)] := by
      simp [AVIOContext.next, hdrop, hb]
    have hr := read_explicit_short_form stk pb de _ _ _ _ _ _ _ _ hnext ht hvalid
      ((isvr32_catalog _).1 hs)
    rw [hr, hb]
    have hval : (byte_of h.vl).val + 256 * (byte_of (h.vl / 256)).val = h.vl := by
      rw [byte_of_val, byte_of_val]
      omega
    simp [wire_header.element, wire_header.tag, wire_header.vr, hval]
  · have hb : h.bytes =
        [h.b0, h.b1, h.b2, h.b3, h.v0, h.v1, 0, 0, byte_of h.vl, byte_of (h.vl / 256),
         byte_of (h.vl / 65536), byte_of (h.vl / 16777216)] := by
      simp [wire_header.bytes, hs]
    rw [if_neg hs] at hvl
    have hnext : pb.next 12 =
        [h.b0, h.b1, h.b2, h.b3, h.v0, h.v1, 0, 0, byte_of h.vl, byte_of (h.vl / 256),
         byte_of (h.vl / 65536), byte_of (h.vl / 16777216)] := by
      simp [AVIOContext.next, hdrop, hb]
    have h32 : isvr32 (h.v0.val + 256 * h.v1.val) ≠ 0 := by
      have := (isvr32_catalog _).2 hs
      unfold wire_header.vr at this
      omega
    have hr := read_explicit_long_form stk pb de _ _ _ _ _ _ _ _ _ _ hnext ht hvalid h32
    rw [hr, hb]
    have hval : (byte_of h.vl).val + 256 * (byte_of (h.vl / 256)).val +
        65536 * (byte_of (h.vl / 65536)).val + 16777216 * (byte_of (h.vl / 16777216)).val =
        h.vl := by
      simp only [byte_of_val]
      omega
    simp [wire_header.element, wire_header.tag, wire_header.vr, hval]


theorem read_dataset_loop_element (stk : Stack) (fuel : Nat) (pb : AVIOContext)
    (de : data_element) (h : wire_header) (value tail : List Byte)
    (hdrop : pb.data.drop pb.pos = h.bytes ++ value ++ tail)
    (hv : h.valid) (hlen : value.length = h.vl) (hdef : h.vl ≠ 0xFFFFFFFF)
    (hlow : h.tag < MAKE_TAG 0x7fe0 0x0010) (ht : de.tag < h.tag) :
    read_dataset_loop stk (fuel + 1) pb de =
      read_dataset_loop stk fuel
        { data := pb.data, pos := pb.pos + (h.bytes.length + h.vl) } h.element ∧
    pb.data.drop (pb.pos + (h.bytes.length + h.vl)) = tail := by
  have hr := read_explicit_wire_header stk pb de h (value ++ tail)
    (by rw [hdrop, List.append_assoc]) hv ht
  constructor
  · have := read_dataset_loop_skip stk fuel pb _ de h.element hlow hdef hr
    rw [this]
    simp [avio_skip, wire_header.element, Nat.add_assoc]
  · rw [← hlen, ← List.length_append, ← List.drop_drop, hdrop, List.drop_left]

theorem read_dataset_loop_last (stk : Stack) (fuel : Nat) (pb : AVIOContext)
    (de : data_element) (last : wire_header) (tail : List Byte)
    (hdrop : pb.data.drop pb.pos = last.bytes ++ tail)
    (hv : last.valid) (hstop : MAKE_TAG 0x7fe0 0x0010 ≤ last.tag) (ht : de.tag < last.tag) :
    read_dataset_loop stk (fuel + 1) pb de =
      .ret (0, { data := pb.data, pos := pb.pos + last.bytes.length }) := by
  have hr := read_explicit_wire_header stk pb de last tail hdrop hv ht
  exact read_dataset_loop_stop stk fuel pb _ de last.element hstop hr

theorem read_dataset_loop_elements (stk : Stack) (elems : List (wire_header × List Byte))
    (last : wire_header) (tail : List Byte) :
    ∀ (extra : Nat) (pb : AVIOContext) (de : data_element),
      pb.data.drop pb.pos = dataset_bytes elems ++ (last.bytes ++ tail) →
      (∀ p ∈ elems, p.1.valid ∧ p.2.length = p.1.vl ∧ p.1.vl ≠ 0xFFFFFFFF ∧
        p.1.tag < MAKE_TAG 0x7fe0 0x0010) →
      List.Chain (fun a b => a < b) de.tag (elems.map fun p => p.1.tag) →
      de.tag < MAKE_TAG 0x7fe0 0x0010 →
      last.valid → MAKE_TAG 0x7fe0 0x0010 ≤ last.tag →
      read_dataset_loop stk (elems.length + 1 + extra) pb de =
        .ret (0, { data := pb.data,
                   pos := pb.pos + ((dataset_bytes elems).length + last.bytes.length) }) := by
  induction elems with
  | nil =>
    intro extra pb de hdrop _ _ hde hv hstop
    have h := read_dataset_loop_last stk (0 + extra) pb de last tail
      (by simpa [dataset_bytes] using hdrop) hv hstop (by omega)
    simpa [dataset_bytes, Nat.add_comm, Nat.add_left_comm] using h
  | cons p rest ih =>
    intro extra pb de hdrop hall hchain hde hv hstop
    have hp := hall p (List.mem_cons_self _ _)
    simp only [List.map_cons, List.chain_cons] at hchain
    have hstep := read_dataset_loop_element stk (rest.length + 1 + extra) pb de p.1 p.2
      (dataset_bytes rest ++ (last.bytes ++ tail))
      (by rw [hdrop]; simp [dataset_bytes, List.append_assoc]) hp.1 hp.2.1 hp.2.2.1 hp.2.2.2
      hchain.1
    have hrest := ih extra
      { data := pb.data, pos := pb.pos + (p.1.bytes.length + p.1.vl) } p.1.element
      hstep.2 (fun q hq => hall q (List.mem_cons_of_mem _ hq)) hchain.2 hp.2.2.2 hv hstop
    have hfuel : (p :: rest).length + 1 + extra = (rest.length + 1 + extra) + 1 := by
      simp only [List.length_cons]
      omega
    rw [hfuel, hstep.1, hrest]
    simp [dataset_bytes, hp.2.1, Nat.add_assoc]

theorem next_take (pb : AVIOContext) (m n : Nat) (h : m ≤ n) :
    pb.next m = (pb.next n).take m := by
  simp [AVIOContext.next, List.take_take, Nat.min_eq_left h]

theorem read_explicit_undef_item_end_never_succeeds (stk : Stack) (pb : AVIOContext)
    (de : data_element) (v : List Byte)
    (h : pb.next 8 = 0xfe :: 0xff :: 0x0d :: 0xe0 :: v) (hv : ∃ x ∈ v, x ≠ 0)
    (de' : data_element) (pb' : AVIOContext) :
    read_explicit_undef stk pb de ≠ .ret (0, de', pb') := by
  by_cases ht : de.tag < MAKE_TAG 0xfffe 0xe00d
  · rw [read_explicit_undef_item_end_nonzero stk pb de v h ht hv]
    simp [AVERROR_INVALIDDATA]
  · have h4 : pb.next 4 = [0xfe, 0xff, 0x0d, 0xe0] := by
      rw [next_take pb 4 8 (by omega), h]
      rfl
    have hw : wire_tag 0xfe 0xff 0x0d 0xe0 = MAKE_TAG 0xfffe 0xe00d := by decide
    rw [(readers_abort_tag_not_above stk pb de 0xfe 0xff 0x0d 0xe0 h4
      (by rw [hw]; omega)).2.1]
    simp

/-! ## The claims, second group -/

/-- C11. A delimiter with a non-zero length never decodes: `read_explicit_undef` on an
Item-Delimitation tag whose length field holds a non-zero byte never returns 0, whatever
the lower bound, and with the tag above the lower bound it returns
`AVERROR_INVALIDDATA` and leaves the caller's element unchanged; `is_end_item` and
`is_end_sq` abort on an element with their delimiter tag and `vl != 0`; and none of
`read_item_undef`, `read_sq_undef`, `read_encapsulated_pixel_data` returns on any
source, so none terminates successfully on such a delimiter. -/
theorem delimiter_with_length_never_decodes :
    (∀ (stk : Stack) (pb : AVIOContext) (de : data_element) (v : List Byte),
      pb.next 8 = 0xfe :: 0xff :: 0x0d :: 0xe0 :: v →
      (∃ x ∈ v, x ≠ 0) →
      (∀ de' pb', read_explicit_undef stk pb de ≠ .ret (0, de', pb')) ∧
      (de.tag < MAKE_TAG 0xfffe 0xe00d →
        read_explicit_undef stk pb de =
          .ret (AVERROR_INVALIDDATA, de,
            { data := pb.data, pos := pb.pos + (4 + v.length) }))) ∧
    (∀ de : data_element, de.tag = MAKE_TAG 0xfffe 0xe00d → de.vl ≠ 0 →
      is_end_item de = .abort) ∧
    (∀ de : data_element, de.tag = MAKE_TAG 0xfffe 0xe0dd → de.vl ≠ 0 →
      is_end_sq de = .abort) ∧
    (∀ (stk : Stack) (fuel : Nat) (pb : AVIOContext) (r : Nat × AVIOContext),
      read_item_undef stk fuel pb ≠ .ret r ∧ read_sq_undef stk fuel pb ≠ .ret r ∧
      read_encapsulated_pixel_data stk fuel pb ≠ .ret r) :=
  ⟨fun stk pb de v h hv =>
      ⟨read_explicit_undef_item_end_never_succeeds stk pb de v h hv,
       fun ht => read_explicit_undef_item_end_nonzero stk pb de v h ht hv⟩,
    is_end_item_nonzero, is_end_sq_nonzero,
    fun stk fuel pb r => ⟨read_item_undef_never_returns stk fuel pb r,
      read_sq_undef_never_returns stk fuel pb r,
      read_encapsulated_pixel_data_never_returns stk fuel pb r⟩⟩

/-- C11 at an Item-Delimitation tag with the length 1, lower bound 0, and at the two
delimiter elements with `vl = 1`. -/
theorem delimiter_with_length_never_decodes_witness :
    (de_zero.tag < MAKE_TAG 0xfffe 0xe00d ∧
      (∃ x ∈ ([0x01, 0x00, 0x00, 0x00] : List Byte), x ≠ 0)) ∧
    (∀ stk : Stack,
      read_explicit_undef stk { data := item_end_length_one_source, pos := 0 } de_zero =
        .ret (AVERROR_INVALIDDATA, de_zero,
          { data := item_end_length_one_source, pos := 8 })) ∧
    is_end_item { tag := MAKE_TAG 0xfffe 0xe00d, vr := E_INVALID, vl := 1 } = .abort ∧
    is_end_sq { tag := MAKE_TAG 0xfffe 0xe0dd, vr := E_INVALID, vl := 1 } = .abort :=
  ⟨⟨by decide, by decide⟩,
   fun stk => ((delimiter_with_length_never_decodes.1 stk
      { data := item_end_length_one_source, pos := 0 } de_zero [0x01, 0x00, 0x00, 0x00]
      (by decide) (by decide)).2 (by decide)).trans (by decide),
   delimiter_with_length_never_decodes.2.1 _ rfl (by decide),
   delimiter_with_length_never_decodes.2.2.1 _ rfl (by decide)⟩

/-- C12, the claim as stated fails. The source is one defined-length element with the
tag (0000,0000), VR `UL` and length 0, followed by a Pixel Data header: one element,
so its tags are strictly increasing, and below (7FE0,0010). `read_dataset` starts with
the lower bound 0 and `read_explicit` asserts that the tag read is above it, so the
scan aborts on the first header instead of stopping after the Pixel Data header. -/
theorem read_dataset_aborts_on_zero_tag :
    (zero_tag_source = dataset_bytes zero_tag_elements ++ pixel_data_header.bytes ∧
      (∀ p ∈ zero_tag_elements, p.1.valid ∧ p.2.length = p.1.vl ∧ p.1.vl ≠ 0xFFFFFFFF ∧
        p.1.tag < MAKE_TAG 0x7fe0 0x0010) ∧
      List.Chain' (fun a b => a < b) (zero_tag_elements.map fun p => p.1.tag) ∧
      pixel_data_header.valid ∧ MAKE_TAG 0x7fe0 0x0010 ≤ pixel_data_header.tag) ∧
    (∀ (stk : Stack) (fuel : Nat),
      read_dataset stk (fuel + 1) { data := zero_tag_source, pos := 0 } = .abort) :=
  ⟨⟨by decide, by decide, List.chain'_singleton _, by decide, by decide⟩, fun stk fuel =>
    read_dataset_loop_abort stk fuel _ _
      (readers_abort_tag_not_above stk { data := zero_tag_source, pos := 0 }
        { tag := 0, vr := 0, vl := 0 } 0x00 0x00 0x00 0x00 (by decide) (by decide)).1⟩

/-- C12, amended. The source is `n` defined-length explicit-VR elements, each a valid
header followed by exactly `vl` value bytes (`vl` may be 0), with tags strictly
increasing from above (0000,0000) and below (7FE0,0010), then a valid explicit-VR
header with a tag at or above (7FE0,0010), then anything. With `n + 1` or more turns
of its loop allowed, `read_dataset` returns 0 with the cursor just after that last
header. Turn by turn: after each of the `n` headers the loop goes on at the offset
right after the `vl` value bytes, whatever the VR, with the element just read as the
new lower bound. -/
theorem read_dataset_skips_each_value (stk : Stack) (elems : List (wire_header × List Byte))
    (last : wire_header) (tail : List Byte) (extra : Nat)
    (hall : ∀ p ∈ elems, p.1.valid ∧ p.2.length = p.1.vl ∧ p.1.vl ≠ 0xFFFFFFFF ∧
      p.1.tag < MAKE_TAG 0x7fe0 0x0010)
    (hchain : List.Chain (fun a b => a < b) 0 (elems.map fun p => p.1.tag))
    (hv : last.valid) (hstop : MAKE_TAG 0x7fe0 0x0010 ≤ last.tag) :
    read_dataset stk (elems.length + 1 + extra)
        { data := dataset_bytes elems ++ (last.bytes ++ tail), pos := 0 } =
      .ret (0, { data := dataset_bytes elems ++ (last.bytes ++ tail),
                 pos := (dataset_bytes elems).length + last.bytes.length }) ∧
    (∀ (fuel : Nat) (pb : AVIOContext) (de : data_element) (h : wire_header)
        (value rest : List Byte),
      pb.data.drop pb.pos = h.bytes ++ value ++ rest →
      h.valid → value.length = h.vl → h.vl ≠ 0xFFFFFFFF →
      h.tag < MAKE_TAG 0x7fe0 0x0010 → de.tag < h.tag →
      read_dataset_loop stk (fuel + 1) pb de =
        read_dataset_loop stk fuel
          { data := pb.data, pos := pb.pos + (h.bytes.length + h.vl) } h.element ∧
      pb.data.drop (pb.pos + (h.bytes.length + h.vl)) = rest) := by
  refine ⟨?_, fun fuel pb de h value rest hdrop hval hlen hdef hlow ht =>
    read_dataset_loop_element stk fuel pb de h value rest hdrop hval hlen hdef hlow ht⟩
  have h := read_dataset_loop_elements stk elems last tail extra
    { data := dataset_bytes elems ++ (last.bytes ++ tail), pos := 0 }
    { tag := 0, vr := 0, vl := 0 } (by simp) hall hchain (by decide) hv hstop
  simpa [read_dataset] using h

/-- C12, the amended claim at a dataset of three elements, `UL` of length 4, `OB` of
length 2 and `PN` of length 0, followed by the Pixel Data header: `read_dataset` returns
0 with the cursor at 46, just after the 12 bytes of that header. -/
theorem read_dataset_skips_each_value_witness :
    (dataset_source =
        dataset_bytes dataset_elements ++
          (pixel_data_header.bytes ++ [0xfe, 0xff, 0x00, 0xe0, 0x00, 0x00, 0x00, 0x00]) ∧
      (dataset_bytes dataset_elements).length + pixel_data_header.bytes.length = 46) ∧
    (∀ (stk : Stack) (extra : Nat),
      read_dataset stk (3 + 1 + extra) { data := dataset_source, pos := 0 } =
        .ret (0, { data := dataset_source, pos := 46 })) := by
  have hsrc : dataset_source =
      dataset_bytes dataset_elements ++
        (pixel_data_header.bytes ++ [0xfe, 0xff, 0x00, 0xe0, 0x00, 0x00, 0x00, 0x00]) := by
    decide
  have hlen : (dataset_bytes dataset_elements).length + pixel_data_header.bytes.length = 46 := by
    decide
  refine ⟨⟨hsrc, hlen⟩, fun stk extra => ?_⟩
  have h := (read_dataset_skips_each_value stk dataset_elements pixel_data_header
    [0xfe, 0xff, 0x00, 0xe0, 0x00, 0x00, 0x00, 0x00] extra (by decide)
    (List.Chain.cons (by decide) (List.Chain.cons (by decide)
      (List.Chain.cons (by decide) List.Chain.nil)))
    (by decide) (by decide)).1
  rw [← hsrc, hlen] at h
  exact h

/-- C13. When the element `read_explicit` hands to the loop of `read_dataset` has a tag
below (7FE0,0010), the length `0xFFFFFFFF` and a VR other than SQ, that turn of the loop
aborts: nothing is skipped and no nested scan is entered. And `is_undef_len` returns
true exactly when the length is `0xFFFFFFFF` and the VR is SQ, or the tag is Pixel Data
with VR OB or OW, or the tag is Item-start; with that length and none of the three it
aborts. -/
theorem undefined_length_needs_sq :
    (∀ (stk : Stack) (fuel : Nat) (pb pb' : AVIOContext) (de de' : data_element),
      read_explicit stk pb de = .ret (0, de', pb') →
      de'.tag < MAKE_TAG 0x7fe0 0x0010 → de'.vl = 0xFFFFFFFF → de'.vr ≠ E_SQ →
      read_dataset_loop stk (fuel + 1) pb de = .abort) ∧
    (∀ de : data_element, is_undef_len de = .ret true ↔
      de.vl = 0xFFFFFFFF ∧
      (de.vr = E_SQ ∨ (de.tag = MAKE_TAG 0x7fe0 0x0010 ∧ (de.vr = E_OB ∨ de.vr = E_OW)) ∨
        de.tag = MAKE_TAG 0xfffe 0xe000)) ∧
    (∀ de : data_element, de.vl = 0xFFFFFFFF →
      ¬ (de.vr = E_SQ ∨ (de.tag = MAKE_TAG 0x7fe0 0x0010 ∧ (de.vr = E_OB ∨ de.vr = E_OW)) ∨
        de.tag = MAKE_TAG 0xfffe 0xe000) →
      is_undef_len de = .abort) := by
  refine ⟨fun stk fuel pb pb' de de' h hlow hvl hvr =>
    read_dataset_loop_undef_not_sq stk fuel pb pb' de de' hlow hvl hvr h,
    is_undef_len_true_iff, ?_⟩
  intro de hvl hn
  have hsq : de.vr ≠ E_SQ := fun h => hn (Or.inl h)
  have hs : de.tag ≠ MAKE_TAG 0xfffe 0xe000 := fun h => hn (Or.inr (Or.inr h))
  by_cases hp : de.tag = MAKE_TAG 0x7fe0 0x0010
  · have hob : ¬ (de.vr = E_OB ∨ de.vr = E_OW) := fun h => hn (Or.inr (Or.inl ⟨hp, h⟩))
    simp [is_undef_len, hvl, hsq, hp, hob, is_encapsulated_pixel_data, tag_equal_to,
      av_assert0]
  · simp [is_undef_len, hvl, hsq, hp, hs, is_encapsulated_pixel_data, tag_equal_to,
      av_assert0, is_start]

/-- C13 at an element (0008,0000) with VR `UN` and undefined length: `read_explicit`
decodes it and `read_dataset` aborts. -/
theorem undefined_length_needs_sq_witness :
    (∀ stk : Stack, read_explicit stk { data := undefined_un_source, pos := 0 } de_zero =
      .ret (0, { tag := MAKE_TAG 0x0008 0x0000, vr := E_UN, vl := 0xFFFFFFFF },
            { data := undefined_un_source, pos := 12 })) ∧
    (MAKE_TAG 0x0008 0x0000 < MAKE_TAG 0x7fe0 0x0010 ∧ E_UN ≠ E_SQ) ∧
    (∀ (stk : Stack) (fuel : Nat),
      read_dataset stk (fuel + 1) { data := undefined_un_source, pos := 0 } = .abort) := by
  have h1 : ∀ stk : Stack,
      read_explicit stk { data := undefined_un_source, pos := 0 } de_zero =
      .ret (0, { tag := MAKE_TAG 0x0008 0x0000, vr := E_UN, vl := 0xFFFFFFFF },
            { data := undefined_un_source, pos := 12 }) := fun stk =>
    (read_explicit_long_form stk { data := undefined_un_source, pos := 0 } de_zero
      0x08 0x00 0x00 0x00 0x55 0x4e 0xff 0xff 0xff 0xff (by decide) (by decide) (by decide)
      (by decide)).trans (by decide)
  exact ⟨h1, ⟨by decide, by decide⟩, fun stk fuel =>
    undefined_length_needs_sq.1 stk fuel _ _ _ _ (h1 stk) (by decide) rfl (by decide)⟩

/-- C14, a defect of the code. The source holds an Item-start tag and only the first
byte of its 32-bit length, 5 bytes where `read_implicit` needs 8. The second
`avio_read` stores that one byte and returns 1, which the test `ret <= 0` lets through:
`read_implicit` returns 0 and yields an element whose length is the byte read plus
whatever the other three bytes of the uninitialised `vl` held, the cursor 5 bytes on. -/
theorem read_implicit_accepts_truncated_length (stk : Stack) :
    read_implicit stk { data := truncated_item_start_source, pos := 0 } de_zero =
      .ret (0, { tag := MAKE_TAG 0xfffe 0xe000, vr := E_INVALID,
                 vl := 10 + 256 * (stk.vl 1).val + 65536 * (stk.vl 2).val +
                   16777216 * (stk.vl 3).val },
            { data := truncated_item_start_source, pos := 5 }) := by
  have h := read_implicit_short_read stk { data := truncated_item_start_source, pos := 0 }
    de_zero 0xfe 0xff 0x00 0xe0 [0x0a] (by decide) (by simp)
    (show (0 : Nat) < wire_tag 0xfe 0xff 0x00 0xe0 by decide)
  have hw : wire_tag 0xfe 0xff 0x00 0xe0 = MAKE_TAG 0xfffe 0xe000 := by decide
  have hv : u32 (fill stk.vl [0x0a]) =
      10 + 256 * (stk.vl 1).val + 65536 * (stk.vl 2).val + 16777216 * (stk.vl 3).val := by
    simp [u32, fill]
    rfl
  rw [h, hw, hv]
  rfl

/-- C15. When the source holds 8 more bytes and the first 4 decode to a tag above the
lower bound, `read_implicit` returns 0 with the cursor exactly 8 bytes on, the tag
`(LE16 of bytes 0..1) << 16 | (LE16 of bytes 2..3)`, the VR `E_INVALID` (0) and the
length the little-endian 32-bit value of bytes 4..7, whatever those four bytes are. -/
theorem read_implicit_complete_header (stk : Stack) (pb : AVIOContext) (de : data_element)
    (b0 b1 b2 b3 b4 b5 b6 b7 : Byte)
    (h : pb.next 8 = [b0, b1, b2, b3, b4, b5, b6, b7])
    (ht : de.tag < (b0.val + 256 * b1.val) <<< 16 ||| (b2.val + 256 * b3.val)) :
    read_implicit stk pb de =
      .ret (0, { tag := (b0.val + 256 * b1.val) <<< 16 ||| (b2.val + 256 * b3.val),
                 vr := 0,
                 vl := b4.val + 256 * b5.val + 65536 * b6.val + 16777216 * b7.val },
            { data := pb.data, pos := pb.pos + 8 }) := by
  rw [← wire_tag_unfold] at ht ⊢
  exact read_implicit_full stk pb de b0 b1 b2 b3 b4 b5 b6 b7 h ht

/-- C15 at an Item-start tag with the length bytes `FF FF FF FF`, lower bound 0: the
result is Item-start with undefined length, 8 bytes on. -/
theorem read_implicit_complete_header_witness :
    (de_zero.tag < (0xfe + 256 * 0xff) <<< 16 ||| (0x00 + 256 * 0xe0)) ∧
    (∀ stk : Stack,
      read_implicit stk { data := undefined_item_start_source, pos := 0 } de_zero =
        .ret (0, { tag := MAKE_TAG 0xfffe 0xe000, vr := E_INVALID, vl := 0xFFFFFFFF },
              { data := undefined_item_start_source, pos := 8 })) :=
  ⟨by decide, fun stk =>
    (read_implicit_complete_header stk { data := undefined_item_start_source, pos := 0 }
      de_zero 0xfe 0xff 0x00 0xe0 0xff 0xff 0xff 0xff (by decide)
      (show (0 : Nat) < _ by decide)).trans (by decide)⟩

/-- C16, the claim as stated fails. The source holds the tag (FFFE,E000), which is not
the Item-Delimitation sentinel, then the VR `UL` and the length 4; with lower bound 0
`read_explicit` returns 0 with that element after 8 bytes, and `read_explicit_undef`
aborts on `av_assert0( get_group(t.tag) != 0xfffe )`. -/
theorem read_explicit_undef_differs_on_item_start :
    (∀ stk : Stack, tag_read stk { data := item_start_ul_source, pos := 0 } =
      MAKE_TAG 0xfffe 0xe000) ∧
    MAKE_TAG 0xfffe 0xe000 ≠ MAKE_TAG 0xfffe 0xe00d ∧
    (∀ stk : Stack, read_explicit stk { data := item_start_ul_source, pos := 0 } de_zero =
      .ret (0, { tag := MAKE_TAG 0xfffe 0xe000, vr := E_UL, vl := 4 },
            { data := item_start_ul_source, pos := 8 })) ∧
    (∀ stk : Stack,
      read_explicit_undef stk { data := item_start_ul_source, pos := 0 } de_zero = .abort) :=
  ⟨fun stk => (tag_read_eq stk { data := item_start_ul_source, pos := 0 }
      0xfe 0xff 0x00 0xe0 (by decide)).trans (by decide),
   by decide,
   fun stk => (read_explicit_short_form stk { data := item_start_ul_source, pos := 0 } de_zero
      0xfe 0xff 0x00 0xe0 0x55 0x4c 0x04 0x00 (by decide) (by decide) (by decide)
      (by decide)).trans (by decide),
   fun stk => read_explicit_undef_group_fffe stk { data := item_start_ul_source, pos := 0 }
      de_zero 0xfe 0xff 0x00 0xe0 (by decide) (by decide) (by decide) (by decide)⟩

/-- C16, amended. Whenever the tag read has a group other than FFFE (or no tag byte
could be read at all): if `read_explicit` does not abort, `read_explicit_undef` returns
exactly what `read_explicit` returns, the same `int`, the same element and the same
cursor; if `read_explicit` aborts, `read_explicit_undef` does not succeed either, it
aborts or returns `AVERROR_INVALIDDATA` with the caller's element unchanged. A tag of
group FFFE above the lower bound that is not the sentinel makes `read_explicit_undef`
abort. When the tag is the sentinel (FFFE,E00D), above the lower bound, and the 4 bytes
after it are zero, `read_explicit_undef` returns 0 after exactly 8 bytes with tag
(FFFE,E00D), VR `E_INVALID` (0) and length 0. -/
theorem read_explicit_undef_agrees_outside_group_fffe :
    (∀ (stk : Stack) (pb : AVIOContext) (de : data_element),
      ((avio_read pb 4).ret ≤ 0 ∨ get_group (tag_read stk pb) ≠ 0xfffe) →
      (read_explicit stk pb de ≠ .abort →
        read_explicit_undef stk pb de = read_explicit stk pb de) ∧
      (read_explicit stk pb de = .abort →
        read_explicit_undef stk pb de = .abort ∨
        ∃ pb', read_explicit_undef stk pb de = .ret (AVERROR_INVALIDDATA, de, pb'))) ∧
    (∀ (stk : Stack) (pb : AVIOContext) (de : data_element) (b0 b1 b2 b3 : Byte),
      pb.next 4 = [b0, b1, b2, b3] → de.tag < wire_tag b0 b1 b2 b3 →
      get_group (wire_tag b0 b1 b2 b3) = 0xfffe →
      wire_tag b0 b1 b2 b3 ≠ MAKE_TAG 0xfffe 0xe00d →
      read_explicit_undef stk pb de = .abort) ∧
    (∀ (stk : Stack) (pb : AVIOContext) (de : data_element),
      pb.next 8 = [0xfe, 0xff, 0x0d, 0xe0, 0, 0, 0, 0] →
      de.tag < MAKE_TAG 0xfffe 0xe00d →
      read_explicit_undef stk pb de =
        .ret (0, { tag := MAKE_TAG 0xfffe 0xe00d, vr := 0, vl := 0 },
              { data := pb.data, pos := pb.pos + 8 })) :=
  ⟨fun stk pb de hg => ⟨read_explicit_undef_eq_read_explicit stk pb de hg,
      read_explicit_undef_fails_when_read_explicit_aborts stk pb de hg⟩,
   read_explicit_undef_group_fffe,
   read_explicit_undef_item_end⟩

/-- C16, the amended claim at Scenario 1 (both readers return the element UL of length
4 after 8 bytes) and at the sentinel with a zero length, lower bound 0. -/
theorem read_explicit_undef_agrees_outside_group_fffe_witness :
    (∀ stk : Stack,
      get_group (tag_read stk { data := scenario1_source, pos := 0 }) ≠ 0xfffe ∧
      read_explicit stk { data := scenario1_source, pos := 0 } de_zero =
        .ret (0, { tag := MAKE_TAG 0x0008 0x0000, vr := E_UL, vl := 4 },
              { data := scenario1_source, pos := 8 }) ∧
      read_explicit_undef stk { data := scenario1_source, pos := 0 } de_zero =
        .ret (0, { tag := MAKE_TAG 0x0008 0x0000, vr := E_UL, vl := 4 },
              { data := scenario1_source, pos := 8 })) ∧
    (∀ stk : Stack, read_explicit_undef stk { data := item_end_source, pos := 0 } de_zero =
      .ret (0, { tag := MAKE_TAG 0xfffe 0xe00d, vr := 0, vl := 0 },
            { data := item_end_source, pos := 8 })) := by
  refine ⟨fun stk => ?_, fun stk =>
    read_explicit_undef_agrees_outside_group_fffe.2.2 stk { data := item_end_source, pos := 0 }
      de_zero (by decide) (by decide)⟩
  have htag : tag_read stk { data := scenario1_source, pos := 0 } = MAKE_TAG 0x0008 0x0000 :=
    (tag_read_eq stk { data := scenario1_source, pos := 0 } 0x08 0x00 0x00 0x00
      (by decide)).trans (by decide)
  have hg : get_group (tag_read stk { data := scenario1_source, pos := 0 }) ≠ 0xfffe := by
    rw [htag]
    decide
  have h1 : read_explicit stk { data := scenario1_source, pos := 0 } de_zero =
      .ret (0, { tag := MAKE_TAG 0x0008 0x0000, vr := E_UL, vl := 4 },
            { data := scenario1_source, pos := 8 }) :=
    (read_explicit_short_form stk { data := scenario1_source, pos := 0 } de_zero
      0x08 0x00 0x00 0x00 0x55 0x4c 0x04 0x00 (by decide) (by decide) (by decide)
      (by decide)).trans (by decide)
  have h2 := (read_explicit_undef_agrees_outside_group_fffe.1 stk
    { data := scenario1_source, pos := 0 } de_zero (Or.inr hg)).1 (by rw [h1]; simp)
  exact ⟨hg, h1, h2.trans h1⟩

/-- C17, a defect of the code. A failed header read is not reported. On a Pixel Data
header with non-zero padding `read_explicit` returns `AVERROR_INVALIDDATA`, and on an
empty source `AVERROR(EIO)`, yet `read_dataset` returns 0 on both: its loop only tests
`ret == 0` and the function ends in `return 0`. And when `read_explicit_undef` fails
inside `read_item_undef`, `av_assert0( b )` passes, the untouched element `{ 0 }` is
accounted with `compute_len` (12 bytes) and the loop goes on; on an empty source it
never ends. -/
theorem failed_header_read_is_not_reported (stk : Stack) (fuel : Nat) :
    (read_explicit stk { data := bad_padding_source, pos := 0 } de_zero =
        .ret (AVERROR_INVALIDDATA, de_zero, { data := bad_padding_source, pos := 8 }) ∧
      read_dataset stk (fuel + 1) { data := bad_padding_source, pos := 0 } =
        .ret (0, { data := bad_padding_source, pos := 8 })) ∧
    (read_explicit stk { data := [], pos := 0 } de_zero =
        .ret (AVERROR EIO, de_zero, { data := [], pos := 0 }) ∧
      read_dataset stk (fuel + 1) { data := [], pos := 0 } =
        .ret (0, { data := [], pos := 0 })) ∧
    (read_explicit_undef stk { data := [], pos := 0 } de_zero =
        .ret (AVERROR EIO, de_zero, { data := [], pos := 0 }) ∧
      (∀ itemlen, read_item_undef_loop stk (fuel + 1) { data := [], pos := 0 } de_zero itemlen =
        read_item_undef_loop stk fuel { data := [], pos := 0 } de_zero
          ((itemlen + 12) % 4294967296)) ∧
      read_item_undef stk fuel { data := [], pos := 0 } = .nofuel) := by
  have hpad := (nonzero_padding_invalid stk { data := bad_padding_source, pos := 0 } de_zero
    0xe0 0x7f 0x10 0x00 0x4f 0x42 0x01 0x00 (by decide) (by decide) (by decide) (by decide)
    (by decide)).1
  have hend := readers_fail_at_end stk { data := [], pos := 0 } de_zero (by decide)
  refine ⟨⟨hpad, ?_⟩, ⟨hend.1, ?_⟩, hend.2.1, ?_, ?_⟩
  · exact read_dataset_loop_error stk fuel _ _ _ _ AVERROR_INVALIDDATA (by decide) hpad
  · exact read_dataset_loop_error stk fuel _ _ _ _ (AVERROR EIO) (by decide) hend.1
  · intro itemlen
    exact read_item_undef_loop_after_error stk fuel _ _ itemlen (AVERROR EIO) (by decide)
      hend.2.1
  · exact read_item_undef_at_end stk fuel _ (by decide) 0

/-- C18. For 16-bit `g` and `e`, `get_group(MAKE_TAG(g,e)) = g` and
`get_element(MAKE_TAG(g,e)) = e`; `MAKE_TAG(g1,e1) < MAKE_TAG(g2,e2)` holds exactly
when `g1 < g2`, or `g1 = g2` and `e1 < e2`, and `tag_is_lower` decides just that; the
packed tag is a 32-bit value and every 32-bit value is the packed tag of its own group
and element. -/
theorem packed_tag_is_order_preserving_bijection :
    (∀ g e, g < 65536 → e < 65536 →
      get_group (MAKE_TAG g e) = g ∧ get_element (MAKE_TAG g e) = e) ∧
    (∀ g1 e1 g2 e2, g1 < 65536 → e1 < 65536 → g2 < 65536 → e2 < 65536 →
      (MAKE_TAG g1 e1 < MAKE_TAG g2 e2 ↔ g1 < g2 ∨ (g1 = g2 ∧ e1 < e2))) ∧
    (∀ g1 e1 g2 e2 vr vl, g1 < 65536 → e1 < 65536 → g2 < 65536 → e2 < 65536 →
      (tag_is_lower { tag := MAKE_TAG g1 e1, vr := vr, vl := vl } (MAKE_TAG g2 e2) = true ↔
        g1 < g2 ∨ (g1 = g2 ∧ e1 < e2))) ∧
    (∀ g e, g < 65536 → e < 65536 → MAKE_TAG g e < 4294967296) ∧
    (∀ t, t < 4294967296 →
      get_group t < 65536 ∧ get_element t < 65536 ∧
      MAKE_TAG (get_group t) (get_element t) = t) := by
  obtain ⟨h1, h2, h3, h4⟩ := packed_tag_facts
  refine ⟨h1, h2, ?_, h3, h4⟩
  intro g1 e1 g2 e2 vr vl hg1 he1 hg2 he2
  rw [← h2 g1 e1 g2 e2 hg1 he1 hg2 he2]
  simp [tag_is_lower]

/-- C18 at the tags of Scenario 5 and at the Item-Delimitation tag. -/
theorem packed_tag_is_order_preserving_bijection_witness :
    (get_group (MAKE_TAG 0xfffe 0xe00d) = 0xfffe ∧
      get_element (MAKE_TAG 0xfffe 0xe00d) = 0xe00d) ∧
    (MAKE_TAG 0x0010 0x0005 < MAKE_TAG 0x0010 0x0010) ∧
    ¬ (MAKE_TAG 0x0010 0x0010 < MAKE_TAG 0x0010 0x0005) ∧
    (MAKE_TAG 0x0010 0xffff < MAKE_TAG 0x0011 0x0000) :=
  ⟨packed_tag_is_order_preserving_bijection.1 0xfffe 0xe00d (by decide) (by decide),
   (packed_tag_is_order_preserving_bijection.2.1 0x0010 0x0005 0x0010 0x0010 (by decide)
      (by decide) (by decide) (by decide)).2 (Or.inr ⟨rfl, by decide⟩),
   fun h => absurd ((packed_tag_is_order_preserving_bijection.2.1 0x0010 0x0010 0x0010 0x0005
      (by decide) (by decide) (by decide) (by decide)).1 h) (by decide),
   (packed_tag_is_order_preserving_bijection.2.1 0x0010 0xffff 0x0011 0x0000 (by decide)
      (by decide) (by decide) (by decide)).2 (Or.inl (by decide))⟩

/-- C19. On every byte source, with every stack contents, `read_sq_undef` ends its
first loop iteration in a failed assertion and so never returns a length: when
`read_implicit` returns 0 the `av_assert0( b )` fails; when it returns an error the
element still has the reset tag 0, `is_end_sq` is false and
`av_assert0( is_start(&de) )` fails; and when `read_implicit` aborts on its own tag
assertion the scan is aborted with it. -/
theorem read_sq_undef_always_aborts (stk : Stack) (fuel : Nat) (pb : AVIOContext) :
    read_sq_undef stk (fuel + 1) pb = .abort ∧
    (∀ r, read_sq_undef stk fuel pb ≠ .ret r) ∧
    (∀ (de de' : data_element) (pb' : AVIOContext) (c : Int),
      read_implicit stk pb { de with tag := 0 } = .ret (c, de', pb') →
      (c = 0 → av_assert0 (c != 0) = .abort) ∧
      (c ≠ 0 → av_assert0 (c != 0) = .ret () ∧ de'.tag = 0 ∧ is_end_sq de' = .ret false ∧
        av_assert0 (is_start de') = .abort)) := by
  refine ⟨read_sq_undef_loop_aborts stk fuel pb _ 0,
    fun r => read_sq_undef_never_returns stk fuel pb r, ?_⟩
  intro de de' pb' c h
  have hs := read_implicit_shape stk pb { de with tag := 0 }
  rw [h] at hs
  simp only [reader_shape] at hs
  constructor
  · rintro rfl
    rfl
  · intro hc
    rcases hs with ⟨_, hde⟩ | ⟨h0, _⟩
    · subst hde
      refine ⟨by simp [av_assert0, hc], rfl, is_end_sq_tag_zero _ rfl, ?_⟩
      simp [av_assert0, is_start_tag_zero]
    · exact absurd h0 hc

/-- C20. For every element that passes the guard of the loop of `read_dataset`, that
is every element `read_explicit` returned 0 with whose tag is below (7FE0,0010), the
group of the tag is not FFFE and is at most 7FE0, so the two `av_assert0` on the group
at the head of the loop body pass. Only the bound on the tag is needed. -/
theorem read_dataset_group_assertions_hold (de' : data_element)
    (hguard : tag_is_lower de' (MAKE_TAG 0x7fe0 0x0010) = true) :
    (get_group de'.tag ≠ 0xfffe ∧ get_group de'.tag ≤ 0x7fe0) ∧
    av_assert0 (get_group de'.tag != 0xfffe) = .ret () ∧
    av_assert0 (decide (get_group de'.tag ≤ 0x7fe0)) = .ret () := by
  have hlow : de'.tag < MAKE_TAG 0x7fe0 0x0010 := by simpa [tag_is_lower] using hguard
  have hg := get_group_below_pixel_data de'.tag hlow
  exact ⟨⟨hg.2, hg.1⟩, by simp [av_assert0, hg.2], by simp [av_assert0, hg.1]⟩

/-- C20 at the last tag below Pixel Data, (7FE0,000F), as `read_explicit` decodes it
with VR `UL` and length 0: it passes the guard and its group 7FE0 passes both
assertions. -/
theorem read_dataset_group_assertions_hold_witness :
    (∀ stk : Stack, read_explicit stk { data := last_tag_source, pos := 0 } de_zero =
      .ret (0, { tag := MAKE_TAG 0x7fe0 0x000f, vr := E_UL, vl := 0 },
            { data := last_tag_source, pos := 8 })) ∧
    tag_is_lower { tag := MAKE_TAG 0x7fe0 0x000f, vr := E_UL, vl := 0 }
      (MAKE_TAG 0x7fe0 0x0010) = true ∧
    get_group (MAKE_TAG 0x7fe0 0x000f) = 0x7fe0 ∧
    av_assert0 (get_group (MAKE_TAG 0x7fe0 0x000f) != 0xfffe) = .ret () ∧
    av_assert0 (decide (get_group (MAKE_TAG 0x7fe0 0x000f) ≤ 0x7fe0)) = .ret () :=
  ⟨fun stk => (read_explicit_short_form stk { data := last_tag_source, pos := 0 } de_zero
      0xe0 0x7f 0x0f 0x00 0x55 0x4c 0x00 0x00 (by decide) (by decide) (by decide)
      (by decide)).trans (by decide),
   by decide, by decide,
   (read_dataset_group_assertions_hold
      { tag := MAKE_TAG 0x7fe0 0x000f, vr := E_UL, vl := 0 } (by decide)).2⟩

end Dicm
